import Mathlib

/-!
Verification development for the minuteman chat archiver.

This file shallowly embeds the ingestion pipeline of
`src/workers/telegram_handler.rs`, the key/value schema, and the
render-time query layer (`src/renderer/chat_listing.rs`,
`src/renderer/get_file.rs`, `src/utils.rs`) of the repository, and proves
or refutes the frozen specification claims against that embedding.

Conventions of the embedding:
* Rust `i64` values (timestamps, ids, sizes, dimensions) are Lean `Int`;
  Rust `/` on `i64` is `Int.tdiv` (truncation towards zero).
* Byte buffers (`Vec<u8>`) are `List Nat`.
* Upstream (Telegram API) calls and the HTTP download are oracles
  collected in an `Env` structure: `resolve` models `get_file_path`,
  `download` models `get_file` (`none` = transport error),
  `imageOk` models `image::load_from_memory(..).is_ok()`,
  `profilePhotos` models `GetUserProfilePhotos` (the first non-empty
  photo-size set, if any).
* The RocksDB store is a map from structural keys to structured values.
  The colon-separated ASCII keys of the schema are represented by the
  `Key` inductive; since all chat/user ids produced by the program are
  decimal renderings of `i64` (no colon, never the literal `meta`), the
  string encoding of the schema is injective and the structural
  representation is faithful.  Serialized JSON values are represented
  structurally by the `Value` inductive; `serde_json` round-trips, so a
  successful deserialization of a stored value is modelled by matching
  the corresponding `Value` constructor.
* A Rust panic (`unwrap` on `None`) is modelled by `none` / a `false`
  success flag; the supervisor restart loop redelivers later updates.
-/

/-- `UserMeta` of `telegram_handler.rs`: identity snapshot of a user. -/
structure UserMeta where
  id : String
  firstName : String
  lastName : Option String
  username : Option String
  isBot : Bool
  languageCode : Option String
deriving DecidableEq

/-- `GroupMeta` of `telegram_handler.rs`. -/
structure GroupMeta where
  id : String
  title : String
  allMembersAreAdministrators : Bool
  inviteLink : Option String
deriving DecidableEq

/-- `SuperGroupMeta` of `telegram_handler.rs`. -/
structure SuperGroupMeta where
  id : String
  title : String
  username : Option String
  inviteLink : Option String
deriving DecidableEq

/-- `ChannelMeta` of `telegram_handler.rs`. -/
structure ChannelMeta where
  id : String
  title : String
  username : Option String
  inviteLink : Option String
deriving DecidableEq

/-- `RawChatMeta` of `telegram_handler.rs`. -/
structure RawChatMeta where
  id : String
  chatType : String
  title : Option String
  username : Option String
  firstName : Option String
  lastName : Option String
  inviteLink : Option String
  languageCode : Option String
  allMembersAreAdministrators : Option Bool
deriving DecidableEq

/-- `ChatMeta` of `telegram_handler.rs`: tagged variant over the chat
kinds.  `user` is the Private-User variant. -/
inductive ChatMeta where
| user (u : UserMeta)
| group (g : GroupMeta)
| superGroup (g : SuperGroupMeta)
| channel (c : ChannelMeta)
| unknown (r : RawChatMeta)
deriving DecidableEq

/-- `ChatMeta::id`. -/
def ChatMeta.id : ChatMeta → String
| .user u => u.id
| .group g => g.id
| .superGroup g => g.id
| .channel c => c.id
| .unknown r => r.id

/-- `ForwardFromMeta` of `telegram_handler.rs`. -/
inductive ForwardFromMeta where
| user (user : UserMeta)
| channel (channel : ChannelMeta) (messageId : Int)
| channelHiddenUser (senderName : String)
| hiddenGroupAdmin (chatId : String) (title : String)
deriving DecidableEq

/-- `ForwardMeta` of `telegram_handler.rs`: replay date plus source. -/
structure ForwardMeta where
  date : Int
  fromMeta : ForwardFromMeta
deriving DecidableEq

/-- Upstream `PhotoSize`: one size variant of a photo. -/
structure PhotoSize where
  fileId : String
  width : Int
  height : Int
  fileSize : Option Int
deriving DecidableEq

/-- Upstream `Audio` (fields the handler reads). -/
structure Audio where
  fileId : String
  duration : Int
  performer : Option String
  title : Option String
  mimeType : Option String
  fileSize : Option Int
deriving DecidableEq

/-- Upstream `Voice` (fields the handler reads). -/
structure Voice where
  fileId : String
  duration : Int
  mimeType : Option String
  fileSize : Option Int
deriving DecidableEq

/-- Upstream `Video` (fields the handler reads). -/
structure Video where
  duration : Int
  width : Int
  height : Int
  thumb : Option PhotoSize
  mimeType : Option String
deriving DecidableEq

/-- Upstream `VideoNote` (fields the handler reads). -/
structure VideoNote where
  duration : Int
  thumb : Option PhotoSize
deriving DecidableEq

/-- Upstream `Document`: the handler reads `file_name` and `mime_type`;
`file_id` and `file_size` are on the wire but `extract_file_paths`
never consults them (its catch-all skips `Document`). -/
structure Document where
  fileId : String
  fileName : Option String
  mimeType : Option String
  fileSize : Option Int
deriving DecidableEq

/-- Upstream `Sticker` (fields the handler reads). -/
structure Sticker where
  emoji : Option String
  setName : Option String
deriving DecidableEq

/-- Upstream `Contact` (fields the handler reads). -/
structure Contact where
  userId : Option Int
  phoneNumber : String
  firstName : String
  lastName : Option String
deriving DecidableEq

/-- Upstream `Location`: `f32` coordinates, modelled by `Float`. -/
structure Location where
  latitude : Float
  longitude : Float

/-- Upstream `MessageEntityKind`.  `textMention` carries the mentioned
user's numeric id (the handler only reads `v.id`). -/
inductive MessageEntityKind where
| mention
| hashtag
| botCommand
| url
| email
| bold
| italic
| code
| pre
| textLink (url : String)
| textMention (userId : Int)
| unknown
deriving DecidableEq

/-- Upstream `MessageEntity`. -/
structure MessageEntity where
  offset : Int
  length : Int
  kind : MessageEntityKind
deriving DecidableEq

/-- Upstream `PollType`. -/
inductive PollType where
| regular
| quiz
deriving DecidableEq

/-- Upstream `PollOption` (fields the handler reads). -/
structure PollOption where
  text : String
  voterCount : Int
deriving DecidableEq

/-- Upstream `Poll` (fields the handler reads). -/
structure Poll where
  id : String
  question : String
  options : List PollOption
  totalVoterCount : Int
  isClosed : Bool
  isAnonymous : Bool
  pollType : PollType
  allowsMultipleAnswers : Bool
  correctOptionId : Option Int
  explanation : Option String
  explanationEntities : Option (List MessageEntity)
  openPeriod : Option Int
  closeDate : Option Int
deriving DecidableEq

/-- Upstream `Venue` (fields the handler reads). -/
structure Venue where
  location : Location
  title : String
  address : String
  foursquareId : Option String

/-- Upstream `MessageKind`.  Variants whose payload the handler never
reads are payload-free here.  `pinnedMessage` abstracts the boxed
`MessageOrChannelPost` by the two projections the handler uses:
`data.text()` and `data.to_message_id()`. -/
inductive MessageKind where
| text (data : String) (entities : List MessageEntity)
| audio (data : Audio)
| document (data : Document) (caption : Option String)
| photo (data : List PhotoSize) (caption : Option String) (mediaGroupId : Option String)
| sticker (data : Sticker)
| video (data : Video) (caption : Option String)
| voice (data : Voice)
| videoNote (data : VideoNote)
| contact (data : Contact)
| location (data : Location)
| poll (data : Poll)
| venue (data : Venue)
| newChatMembers
| leftChatMember
| newChatTitle (data : String)
| newChatPhoto (data : List PhotoSize)
| deleteChatPhoto
| pinnedMessage (text : Option String) (messageId : Int)
| groupChatCreated
| supergroupChatCreated
| channelChatCreated
| migrateToChatId
| migrateFromChatId
| unknown

/-- `InterMessage` of `telegram_handler.rs`: the normalized message.
`replyTo` is the recursive `reply_to_message` box. -/
inductive InterMessage where
| mk (id : Int) (fromUser : Option UserMeta) (date : Int) (chat : ChatMeta)
     (forward : Option ForwardMeta) (replyTo : Option InterMessage)
     (editDate : Option Int) (kind : MessageKind)

/-- Message id. -/
def InterMessage.id : InterMessage → Int
| .mk i _ _ _ _ _ _ _ => i

/-- The `from` field (absent for channel posts). -/
def InterMessage.fromUser : InterMessage → Option UserMeta
| .mk _ f _ _ _ _ _ _ => f

/-- The message's own unix-second date. -/
def InterMessage.date : InterMessage → Int
| .mk _ _ d _ _ _ _ _ => d

/-- The chat the message belongs to. -/
def InterMessage.chat : InterMessage → ChatMeta
| .mk _ _ _ c _ _ _ _ => c

/-- The optional forward information. -/
def InterMessage.forward : InterMessage → Option ForwardMeta
| .mk _ _ _ _ f _ _ _ => f

/-- The optional replied-to message. -/
def InterMessage.replyTo : InterMessage → Option InterMessage
| .mk _ _ _ _ _ r _ _ => r

/-- The optional edit date. -/
def InterMessage.editDate : InterMessage → Option Int
| .mk _ _ _ _ _ _ e _ => e

/-- The raw message kind. -/
def InterMessage.kind : InterMessage → MessageKind
| .mk _ _ _ _ _ _ _ k => k

/-- `LogItemMediaType` of `telegram_handler.rs`. -/
inductive LogItemMediaType where
| image (width : Int) (height : Int)
| video (duration : Int) (width : Int) (height : Int)
        (thumbFileId : Option String) (mimeType : Option String)
| audio (duration : Int) (performer : Option String) (title : Option String)
        (mimeType : Option String)
| voice (duration : Int) (mimeType : Option String)
| videoNote (duration : Int) (thumbFileId : Option String)
| document (fileName : Option String) (mimeType : Option String)
| sticker (emoji : Option String) (setName : Option String)
deriving DecidableEq

/-- `LogItemMembershipType` of `telegram_handler.rs`. -/
inductive LogItemMembershipType where
| left
| joined
deriving DecidableEq

/-- `LogItemSpecialTypeLocation` of `telegram_handler.rs`. -/
structure LogItemSpecialTypeLocation where
  longitude : Float
  latitude : Float

/-- `LogItemSpecialTypePollOption` of `telegram_handler.rs`. -/
structure LogItemSpecialTypePollOption where
  text : String
  voterCount : Int
deriving DecidableEq

/-- `LogItemMessageEntityKind` of `telegram_handler.rs`
(the `TextMention` payload is the user id rendered as a string). -/
inductive LogItemMessageEntityKind where
| mention
| hashtag
| botCommand
| url
| email
| bold
| italic
| code
| pre
| textLink (url : String)
| textMention (userId : String)
| unknown
deriving DecidableEq

/-- `LogItemSpecialTypePollMessageEntity` of `telegram_handler.rs`. -/
structure LogItemSpecialTypePollMessageEntity where
  offset : Int
  length : Int
  kind : LogItemMessageEntityKind
deriving DecidableEq

/-- `LogItemSpecialType` of `telegram_handler.rs`. -/
inductive LogItemSpecialType where
| contact (userId : Option Int) (phoneNumber : String) (firstName : String)
          (lastName : Option String)
| location (latitude : Float) (longitude : Float)
| venue (location : LogItemSpecialTypeLocation) (title : String)
        (address : String) (foursquareId : Option String)
| poll (id : String) (question : String)
       (options : List LogItemSpecialTypePollOption)
       (totalVoterCount : Int) (isClosed : Bool) (isAnonymous : Bool)
       (pollType : PollType) (allowsMultipleAnswers : Bool)
       (correctOptionId : Option Int) (explanation : Option String)
       (explanationEntities : Option (List LogItemSpecialTypePollMessageEntity))
       (openPeriod : Option Int) (closeDate : Option Int)
| pinnnedMessage

/-- `LogItemChatType` of `telegram_handler.rs`. -/
inductive LogItemChatType where
| newTitle (title : String)
| newPhoto (fileId : Option String)
| deletePhoto
deriving DecidableEq

/-- `LogItemMessageEntity` of `telegram_handler.rs`. -/
structure LogItemMessageEntity where
  offset : Int
  length : Int
  kind : LogItemMessageEntityKind
deriving DecidableEq

/-- `LogItem` of `telegram_handler.rs`: the canonical persisted form. -/
inductive LogItem where
| message (userId : Option String) (time : Int) (text : String)
          (entities : List LogItemMessageEntity) (source : Option InterMessage)
| media (userId : Option String) (time : Int) (caption : Option String)
        (mediaType : LogItemMediaType) (files : List String)
        (source : Option InterMessage)
| special (userId : Option String) (time : Int)
          (specialType : LogItemSpecialType) (source : Option InterMessage)
| membership (userId : Option String) (time : Int)
             (membershipType : LogItemMembershipType)
             (source : Option InterMessage)
| chat (userId : Option String) (time : Int) (chatType : LogItemChatType)
       (source : Option InterMessage)
| pin (userId : Option String) (time : Int) (message : Option String)
      (messageId : String) (source : Option InterMessage)
| unimplemented (tag : String) (userId : Option String) (time : Int)
                (source : Option InterMessage)

/-- The `time` field common to every `LogItem` variant. -/
def LogItem.time : LogItem → Int
| .message _ t _ _ _ => t
| .media _ t _ _ _ _ => t
| .special _ t _ _ => t
| .membership _ t _ _ => t
| .chat _ t _ _ => t
| .pin _ t _ _ _ => t
| .unimplemented _ _ t _ => t

/-- The `source` field common to every `LogItem` variant. -/
def LogItem.source : LogItem → Option InterMessage
| .message _ _ _ _ s => s
| .media _ _ _ _ _ s => s
| .special _ _ _ s => s
| .membership _ _ _ s => s
| .chat _ _ _ s => s
| .pin _ _ _ _ s => s
| .unimplemented _ _ _ s => s

/-- The `files` list of a `Media` item (`none` for other variants). -/
def LogItem.filesOf : LogItem → Option (List String)
| .media _ _ _ _ fs _ => some fs
| _ => none

/-- The `media_type` of a `Media` item (`none` for other variants). -/
def LogItem.mediaTypeOf : LogItem → Option LogItemMediaType
| .media _ _ _ mt _ _ => some mt
| _ => none

/-- The id of the `source` message, when a source is recorded. -/
def LogItem.sourceId (l : LogItem) : Option Int :=
  l.source.map InterMessage.id

/-- `MAX_FILE_SIZE` of `prelude.rs`: `1024 * 1024 * 50` bytes. -/
def MAX_FILE_SIZE : Int := 1024 * 1024 * 50

/-- Pixel area of a photo size (`size.width * size.height`). -/
def PhotoSize.area (p : PhotoSize) : Int := p.width * p.height

/-- Loop body of `find_biggest_photo`: state is the current best photo
and `last_size`. -/
def findBiggestPhotoAux : Option PhotoSize → Int → List PhotoSize → Option PhotoSize
| photo, _, [] => photo
| photo, lastSize, p :: rest =>
    if lastSize = 0 then
      findBiggestPhotoAux (some p) p.area rest
    else if p.area > lastSize then
      findBiggestPhotoAux (some p) p.area rest
    else
      findBiggestPhotoAux photo lastSize rest

/-- `find_biggest_photo` of `telegram_handler.rs`.  The Rust function
ends in `photo.unwrap().clone()`; the panic on an empty input is
modelled by `none`. -/
def findBiggestPhoto (photos : List PhotoSize) : Option PhotoSize :=
  findBiggestPhotoAux none 0 photos

lemma findBiggestPhotoAux_mem (l : List PhotoSize) :
    ∀ (photo : Option PhotoSize) (last : Int) (r : PhotoSize),
      findBiggestPhotoAux photo last l = some r → r ∈ l ∨ photo = some r := by
  induction l with
  | nil =>
      intro photo last r h
      right
      simpa [findBiggestPhotoAux] using h
  | cons p rest ih =>
      intro photo last r h
      simp only [findBiggestPhotoAux] at h
      split_ifs at h with h1 h2
      · rcases ih _ _ _ h with hm | he
        · exact Or.inl (List.mem_cons_of_mem _ hm)
        · exact Or.inl (by simp_all)
      · rcases ih _ _ _ h with hm | he
        · exact Or.inl (List.mem_cons_of_mem _ hm)
        · exact Or.inl (by simp_all)
      · rcases ih _ _ _ h with hm | he
        · exact Or.inl (List.mem_cons_of_mem _ hm)
        · exact Or.inr he

lemma findBiggestPhotoAux_isSome (l : List PhotoSize) :
    ∀ (p : PhotoSize) (last : Int),
      (findBiggestPhotoAux (some p) last l).isSome := by
  induction l with
  | nil => intro p last; simp [findBiggestPhotoAux]
  | cons q rest ih =>
      intro p last
      simp only [findBiggestPhotoAux]
      split_ifs <;> exact ih _ _

lemma findBiggestPhotoAux_max (l : List PhotoSize) :
    ∀ (photo : Option PhotoSize) (last : Int),
      (∀ q ∈ l, 0 ≤ q.area) →
      (∀ p0, photo = some p0 → p0.area = last) →
      ∀ r, findBiggestPhotoAux photo last l = some r →
        last ≤ r.area ∧ ∀ q ∈ l, q.area ≤ r.area := by
  induction l with
  | nil =>
      intro photo last _ hinv r h
      simp only [findBiggestPhotoAux] at h
      have := hinv r h
      exact ⟨le_of_eq this.symm, by simp⟩
  | cons p rest ih =>
      intro photo last hpos hinv r h
      have hp0 : 0 ≤ p.area := hpos p (by simp)
      have hrestpos : ∀ q ∈ rest, 0 ≤ q.area := fun q hq => hpos q (by simp [hq])
      simp only [findBiggestPhotoAux] at h
      split_ifs at h with h1 h2
      · obtain ⟨hle, hall⟩ :=
          ih (some p) p.area hrestpos
            (by intro p0 hp; injection hp with hp; rw [hp]) r h
        refine ⟨by omega, ?_⟩
        intro q hq
        rcases List.mem_cons.mp hq with rfl | hq
        · exact hle
        · exact hall q hq
      · obtain ⟨hle, hall⟩ :=
          ih (some p) p.area hrestpos
            (by intro p0 hp; injection hp with hp; rw [hp]) r h
        refine ⟨by omega, ?_⟩
        intro q hq
        rcases List.mem_cons.mp hq with rfl | hq
        · exact hle
        · exact hall q hq
      · obtain ⟨hle, hall⟩ := ih photo last hrestpos hinv r h
        refine ⟨hle, ?_⟩
        intro q hq
        rcases List.mem_cons.mp hq with rfl | hq
        · omega
        · exact hall q hq

lemma findBiggestPhotoAux_first (l : List PhotoSize) :
    ∀ p0 : PhotoSize, 0 < p0.area → (∀ q ∈ l, 0 < q.area) →
      ∀ r, findBiggestPhotoAux (some p0) p0.area l = some r →
        (r = p0 ∧ ∀ q ∈ l, q.area ≤ p0.area) ∨
        (∃ pre post, l = pre ++ r :: post ∧ p0.area < r.area ∧
          (∀ q ∈ pre, q.area < r.area) ∧ (∀ q ∈ post, q.area ≤ r.area)) := by
  induction l with
  | nil =>
      intro p0 _ _ r h
      simp only [findBiggestPhotoAux, Option.some.injEq] at h
      left
      exact ⟨h.symm, by simp⟩
  | cons p rest ih =>
      intro p0 hp0 hl r h
      have hppos : 0 < p.area := hl p (by simp)
      have hrest : ∀ q ∈ rest, 0 < q.area := fun q hq => hl q (by simp [hq])
      simp only [findBiggestPhotoAux] at h
      rw [if_neg (by omega)] at h
      by_cases hgt : p.area > p0.area
      · rw [if_pos hgt] at h
        rcases ih p hppos hrest r h with ⟨hr, hall⟩ | ⟨pre, post, heq, hlt, hpre, hpost⟩
        · right
          subst hr
          refine ⟨[], rest, by simp, by omega, by simp, ?_⟩
          intro q hq
          exact hall q hq
        · right
          refine ⟨p :: pre, post, by simp [heq], by omega, ?_, hpost⟩
          intro q hq
          rcases List.mem_cons.mp hq with rfl | hq
          · omega
          · exact hpre q hq
      · rw [if_neg hgt] at h
        rcases ih p0 hp0 hrest r h with ⟨hr, hall⟩ | ⟨pre, post, heq, hlt, hpre, hpost⟩
        · left
          refine ⟨hr, ?_⟩
          intro q hq
          rcases List.mem_cons.mp hq with rfl | hq
          · omega
          · exact hall q hq
        · right
          refine ⟨p :: pre, post, by simp [heq], hlt, ?_, hpost⟩
          intro q hq
          rcases List.mem_cons.mp hq with rfl | hq
          · omega
          · exact hpre q hq

/-- The photo `find_biggest_photo` returns is an element of its input. -/
lemma findBiggestPhoto_mem {ps : List PhotoSize} {r : PhotoSize}
    (h : findBiggestPhoto ps = some r) : r ∈ ps := by
  rcases findBiggestPhotoAux_mem ps none 0 r h with hm | he
  · exact hm
  · cases he

/-- `find_biggest_photo` succeeds on every non-empty list. -/
lemma findBiggestPhoto_isSome {ps : List PhotoSize} (h : ps ≠ []) :
    (findBiggestPhoto ps).isSome := by
  cases ps with
  | nil => cases h rfl
  | cons p rest =>
      show (findBiggestPhotoAux none 0 (p :: rest)).isSome
      simp only [findBiggestPhotoAux, if_pos rfl]
      exact findBiggestPhotoAux_isSome rest p p.area

/-- On the empty list the Rust function panics (`photo.unwrap()`). -/
lemma findBiggestPhoto_empty : findBiggestPhoto [] = none := rfl

/-- The returned photo maximizes `width·height` (sizes of non-negative
area, as all real photo sizes are). -/
lemma findBiggestPhoto_max {ps : List PhotoSize} {r : PhotoSize}
    (hpos : ∀ q ∈ ps, 0 ≤ q.area) (h : findBiggestPhoto ps = some r) :
    ∀ q ∈ ps, q.area ≤ r.area :=
  (findBiggestPhotoAux_max ps none 0 hpos (by intro p0 hp; cases hp) r h).2

/-- `r` is the first-seen maximal-area element of `l`. -/
def FirstMax (r : PhotoSize) (l : List PhotoSize) : Prop :=
  ∃ pre post, l = pre ++ r :: post ∧
    (∀ q ∈ pre, q.area < r.area) ∧ (∀ q ∈ post, q.area ≤ r.area)

/-- For photo sizes of positive area, ties resolve to first-seen. -/
lemma findBiggestPhoto_firstMax {ps : List PhotoSize} {r : PhotoSize}
    (hpos : ∀ q ∈ ps, 0 < q.area) (h : findBiggestPhoto ps = some r) :
    FirstMax r ps := by
  cases ps with
  | nil => cases h
  | cons p rest =>
      have hp : 0 < p.area := hpos p (by simp)
      have h' : findBiggestPhotoAux (some p) p.area rest = some r := by
        simpa only [findBiggestPhoto, findBiggestPhotoAux, if_pos rfl] using h
      rcases findBiggestPhotoAux_first rest p hp
          (fun q hq => hpos q (by simp [hq])) r h' with
        ⟨hr, hall⟩ | ⟨pre, post, heq, hlt, hpre, hpost⟩
      · subst hr
        refine ⟨[], rest, by simp, by simp, ?_⟩
        intro q hq
        exact hall q hq
      · refine ⟨p :: pre, post, by simp [heq], ?_, hpost⟩
        intro q hq
        rcases List.mem_cons.mp hq with rfl | hq
        · omega
        · exact hpre q hq

/-- `FileEntryType` of `telegram_handler.rs`. -/
inductive FileEntryType where
| chat
| videoThumb
| user
deriving DecidableEq

/-- Structural form of the colon-separated ASCII keyspace of §4.1.
`raw s` is a bare string key that carries no namespace prefix (used by
`get_files`, which probes the plain file-id).  Ids rendered from `i64`
contain no colon and are never the literal `meta`, so this structural
representation is injective for every key the program forms. -/
inductive Key where
| message (chatId : String) (time : Int)
| chatIndex (chatId : String) (day : Int)
| chatRel (chatId : String)
| chatRef (chatId : String) (messageId : Int)
| chatMeta (chatId : String)
| userMeta (userId : String)
| file (entry : FileEntryType) (fileId : String)
| raw (s : String)
deriving DecidableEq

/-- Structural form of the stored byte strings.  JSON-serialized values
are kept structurally; `serde_json` round-trips, so deserialization of a
stored value succeeds exactly on the matching constructor.  Note that
`handle_message` serializes a bare `UserMeta` or `ChannelMeta` (not a
tagged `ChatMeta`) under `chat:meta:` when forward redirection applies;
those are distinct wire shapes and get distinct constructors. -/
inductive Value where
| logItem (l : LogItem)
| mark
| time (t : Int)
| chatMetaJson (m : ChatMeta)
| userMetaJson (u : UserMeta)
| channelMetaJson (c : ChannelMeta)
| userMetaRecord (u : UserMeta)
| bytes (b : List Nat)

/-- The store: RocksDB as a map from keys to values. -/
def Store := Key → Option Value

/-- The empty store. -/
def emptyStore : Store := fun _ => none

/-- `db.put`. -/
def Store.put (s : Store) (k : Key) (v : Value) : Store :=
  fun k' => if k' = k then some v else s k'

/-- `db.key_may_exist`, modelled without spurious bloom-filter
positives (`false` is definite absence in RocksDB; `true` is modelled
as definite presence). -/
def keyMayExist (s : Store) (k : Key) : Bool :=
  (s k).isSome

/-- Raw bytes of a stored value, as `db.get` returns them (only `bytes`
values are ever written under `file:*` keys). -/
def Value.asBytes : Value → Option (List Nat)
| .bytes b => some b
| _ => none

/-- `build_file_key` of `telegram_handler.rs` (`file:chat:`,
`file:video_thumb:`, `file:user:`). -/
def buildFileKey (entry : FileEntryType) (fileId : String) : Key :=
  Key.file entry fileId

/-- Oracles for the upstream API and HTTP transfers (see the header). -/
structure Env where
  resolve : String → Option String
  download : String → Option (List Nat)
  imageOk : List Nat → Bool
  profilePhotos : String → Option (List PhotoSize)

/-- The per-photo loop of `extract_file_paths` for `MessageKind::Photo`:
a photo is skipped (`continue`) when its declared size is absent or
exceeds `MAX_FILE_SIZE`, or when `get_file_path` fails. -/
def photoFileRefs (resolve : String → Option String) :
    List PhotoSize → List (String × String)
| [] => []
| p :: rest =>
    match p.fileSize with
    | some x =>
        if x ≤ MAX_FILE_SIZE then
          match resolve p.fileId with
          | some path => (p.fileId, path) :: photoFileRefs resolve rest
          | none => photoFileRefs resolve rest
        else photoFileRefs resolve rest
    | none => photoFileRefs resolve rest

/-- `extract_file_paths` of `telegram_handler.rs`: the accepted
`(file_id, file_path)` pairs of a message.  For `Audio` and `Voice` a
failing size check or path resolution returns the (still empty) list;
video-bearing kinds are deliberately not extracted. -/
def extractFilePaths (resolve : String → Option String)
    (message : InterMessage) : List (String × String) :=
  match message.kind with
  | .audio data =>
      match data.fileSize with
      | some x =>
          if x ≤ MAX_FILE_SIZE then
            match resolve data.fileId with
            | some path => [(data.fileId, path)]
            | none => []
          else []
      | none => []
  | .voice data =>
      match data.fileSize with
      | some x =>
          if x ≤ MAX_FILE_SIZE then
            match resolve data.fileId with
            | some path => [(data.fileId, path)]
            | none => []
          else []
      | none => []
  | .photo data _ _ => photoFileRefs resolve data
  | _ => []

/-- The loop of `get_files`: for each accepted pair it probes
`db.key_may_exist(&file_id)` — the *bare* file-id, not a `file:*` key —
and on a hit reads `build_file_key(FileEntryType::User, &file_id)`;
otherwise (or when that read yields nothing) it downloads. -/
def getFilesLoop (env : Env) (s : Store) :
    List (String × String) → List (String × List Nat)
| [] => []
| (fileId, filePath) :: rest =>
    let fromDb :=
      if keyMayExist s (Key.raw fileId) then
        (s (buildFileKey .user fileId)).bind Value.asBytes
      else none
    let fileBytes := if fromDb.isNone then env.download filePath else fromDb
    match fileBytes with
    | some b => (fileId, b) :: getFilesLoop env s rest
    | none => getFilesLoop env s rest

/-- `get_files` of `telegram_handler.rs`. -/
def getFiles (env : Env) (s : Store) (message : InterMessage) :
    List (String × List Nat) :=
  getFilesLoop env s (extractFilePaths env.resolve message)

/-- `process_files` of `telegram_handler.rs`: store every fetched blob
under `file:chat:<file-id>` and return the file-ids. -/
def processFiles (env : Env) (s : Store) (message : InterMessage) :
    List String × Store :=
  let fileRefs := getFiles env s message
  let s' := fileRefs.foldl
    (fun st fb => st.put (buildFileKey .chat fb.1) (.bytes fb.2)) s
  (fileRefs.map Prod.fst, s')

/-- `process_photosize` of `telegram_handler.rs`: fetch and store one
photo size under `file:video_thumb:`, with existence pre-check and
image-integrity validation; returns the file-id on success. -/
def processPhotosize (env : Env) (s : Store) (photoSize : PhotoSize)
    (fileId : Option String) : Option String × Store :=
  let fileKey := buildFileKey .videoThumb (fileId.getD photoSize.fileId)
  if keyMayExist s fileKey then
    (some photoSize.fileId, s)
  else
    match env.resolve photoSize.fileId with
    | some path =>
        match env.download path with
        | some f =>
            if env.imageOk f then
              (some photoSize.fileId, s.put fileKey (.bytes f))
            else (none, s)
        | none => (none, s)
    | none => (none, s)

/-- `map_entity_kind` of `telegram_handler.rs`. -/
def mapEntityKind : MessageEntityKind → LogItemMessageEntityKind
| .mention => .mention
| .hashtag => .hashtag
| .botCommand => .botCommand
| .url => .url
| .email => .email
| .bold => .bold
| .italic => .italic
| .code => .code
| .pre => .pre
| .textLink v => .textLink v
| .textMention v => .textMention (toString v)
| .unknown => .unknown

/-- `build_log_item` of `telegram_handler.rs`.  Besides the `LogItem`
it returns the store, because the `Video`, `VideoNote` and
`NewChatPhoto` arms persist a thumbnail through `process_photosize`.
The result is `none` exactly when `find_biggest_photo` panics on an
empty photo-size list (`Photo` and `NewChatPhoto` arms). -/
def buildLogItem (env : Env) (s : Store) (message : InterMessage)
    (files : List String) : Option LogItem × Store :=
  let msgFromId := message.fromUser.map (fun u => u.id)
  match message.kind with
  | .text data entities =>
      (some (.message msgFromId message.date data
        (entities.map fun e =>
          { offset := e.offset, length := e.length,
            kind := mapEntityKind e.kind })
        (some message)), s)
  | .audio data =>
      (some (.media msgFromId message.date none
        (.audio data.duration data.performer data.title data.mimeType)
        files (some message)), s)
  | .document data caption =>
      (some (.media msgFromId message.date caption
        (.document data.fileName data.mimeType)
        files (some message)), s)
  | .photo data caption _ =>
      match findBiggestPhoto data with
      | none => (none, s)
      | some photo =>
          (some (.media msgFromId message.date caption
            (.image photo.width photo.height)
            files (some message)), s)
  | .sticker data =>
      (some (.media msgFromId message.date none
        (.sticker data.emoji data.setName)
        files (some message)), s)
  | .video data caption =>
      let thumbRes :=
        match data.thumb with
        | some thumb => processPhotosize env s thumb none
        | none => (none, s)
      (some (.media msgFromId message.date caption
        (.video data.duration data.width data.height thumbRes.1 data.mimeType)
        files (some message)), thumbRes.2)
  | .voice data =>
      (some (.media msgFromId message.date none
        (.voice data.duration data.mimeType)
        files (some message)), s)
  | .videoNote data =>
      let thumbRes :=
        match data.thumb with
        | some thumb => processPhotosize env s thumb none
        | none => (none, s)
      (some (.media msgFromId message.date none
        (.videoNote data.duration thumbRes.1)
        files (some message)), thumbRes.2)
  | .contact data =>
      (some (.special msgFromId message.date
        (.contact data.userId data.phoneNumber data.firstName data.lastName)
        (some message)), s)
  | .location data =>
      (some (.special msgFromId message.date
        (.location data.latitude data.longitude)
        (some message)), s)
  | .poll data =>
      (some (.special msgFromId message.date
        (.poll data.id data.question
          (data.options.map fun o =>
            { text := o.text, voterCount := o.voterCount })
          data.totalVoterCount data.isClosed data.isAnonymous
          data.pollType data.allowsMultipleAnswers data.correctOptionId
          data.explanation
          (data.explanationEntities.map fun es => es.map fun e =>
            { offset := e.offset, length := e.length,
              kind := mapEntityKind e.kind })
          data.openPeriod data.closeDate)
        (some message)), s)
  | .venue data =>
      (some (.special msgFromId message.date
        (.venue { longitude := data.location.longitude,
                  latitude := data.location.latitude }
          data.title data.address data.foursquareId)
        (some message)), s)
  | .newChatMembers =>
      (some (.membership msgFromId message.date .joined (some message)), s)
  | .leftChatMember =>
      (some (.membership msgFromId message.date .left (some message)), s)
  | .newChatTitle data =>
      (some (.chat msgFromId message.date (.newTitle data) (some message)), s)
  | .newChatPhoto data =>
      match findBiggestPhoto data with
      | none => (none, s)
      | some photoSize =>
          let photoRes := processPhotosize env s photoSize none
          (some (.chat msgFromId message.date (.newPhoto photoRes.1)
            (some message)), photoRes.2)
  | .deleteChatPhoto =>
      (some (.chat msgFromId message.date .deletePhoto (some message)), s)
  | .pinnedMessage text messageId =>
      (some (.pin msgFromId message.date text (toString messageId)
        (some message)), s)
  | .groupChatCreated =>
      (some (.unimplemented "GroupChatCreated" msgFromId message.date
        (some message)), s)
  | .supergroupChatCreated =>
      (some (.unimplemented "SupergroupChatCreated" msgFromId message.date
        (some message)), s)
  | .channelChatCreated =>
      (some (.unimplemented "ChannelChatCreated" msgFromId message.date
        (some message)), s)
  | .migrateToChatId =>
      (some (.unimplemented "MigrateToChatId" msgFromId message.date
        (some message)), s)
  | .migrateFromChatId =>
      (some (.unimplemented "MigrateFromChatId" msgFromId message.date
        (some message)), s)
  | .unknown =>
      (some (.unimplemented "Unknown" msgFromId message.date
        (some message)), s)

/-- The `established_date` of `handle_message`: `forward.date` when a
forward is present, else the message's own `date`. -/
def establishedDate (message : InterMessage) : Int :=
  (message.forward.map fun f => f.date).getD message.date

/-- The `use_forwarded_chat` flag of `handle_message`. -/
def useForwardedChat : ChatMeta → Bool
| .group _ => false
| .superGroup _ => false
| .channel _ => false
| .user _ => true
| .unknown _ => true

/-- The `chat_id` computed in `handle_message`: the forward origin's id
for `User`/`Channel`/`HiddenGroupAdmin` forwards when redirection
applies, and the receiving chat's id otherwise. -/
def handleMessageChatId (message : InterMessage) : String :=
  ((message.forward.map fun originalMessage =>
      if !useForwardedChat message.chat then none
      else
        match originalMessage.fromMeta with
        | .user user => some user.id
        | .channel channel _ => some channel.id
        | .channelHiddenUser _ => none
        | .hiddenGroupAdmin chatId _ => some chatId).join).getD
    message.chat.id

/-- The `chat_meta_value` written by `handle_message`: the bare forward
origin's `UserMeta`/`ChannelMeta` JSON under redirection, else the
receiving chat's tagged `ChatMeta` JSON. -/
def chatMetaValue (message : InterMessage) : Value :=
  ((message.forward.map fun forward =>
      if !useForwardedChat message.chat then none
      else
        match forward.fromMeta with
        | .user user => some (Value.userMetaJson user)
        | .channel channel _ => some (Value.channelMetaJson channel)
        | _ => none).join).getD
    (Value.chatMetaJson message.chat)

/-- `handle_message` of `telegram_handler.rs`: build the `LogItem` and
perform the five writes (message record, day index, chat roster,
message-id ref, chat meta) in source order.  The success flag is
`false` when `build_log_item` panicked; no write of the block has
happened at that point. -/
def handleMessage (env : Env) (s : Store) (message : InterMessage)
    (files : List String) : Bool × Store :=
  match buildLogItem env s message files with
  | (none, s1) => (false, s1)
  | (some logItem, s1) =>
      let t := establishedDate message
      let chatId := handleMessageChatId message
      let s2 := s1.put (Key.message chatId t) (.logItem logItem)
      let s3 := s2.put (Key.chatIndex chatId (t.tdiv 86400)) .mark
      let s4 := s3.put (Key.chatRel chatId) .mark
      let s5 := s4.put (Key.chatRef chatId message.id) (.time t)
      let s6 := s5.put (Key.chatMeta chatId) (chatMetaValue message)
      (true, s6)

/-- `process_user_profile_picture` of `telegram_handler.rs`.  The flag
is `false` when `find_biggest_photo` panics on an empty first
photo-size set; API errors, failed downloads and integrity failures
are swallowed. -/
def processUserProfilePicture (env : Env) (s : Store) (user : UserMeta) :
    Bool × Store :=
  match env.profilePhotos user.id with
  | none => (true, s)
  | some photoSizes =>
      match findBiggestPhoto photoSizes with
      | none => (false, s)
      | some photo =>
          match env.resolve photo.fileId with
          | none => (true, s)
          | some filePath =>
              match env.download filePath with
              | none => (true, s)
              | some file =>
                  if env.imageOk file then
                    (true, s.put (buildFileKey .user user.id) (.bytes file))
                  else (true, s)

/-- `process_user_meta` of `telegram_handler.rs`: upsert
`user:meta:<id>`. -/
def processUserMeta (s : Store) (user : UserMeta) : Store :=
  s.put (Key.userMeta user.id) (.userMetaRecord user)

/-- `process_user` of `telegram_handler.rs`: profile picture (a panic
there aborts), then the meta upsert. -/
def processUser (env : Env) (s : Store) (user : UserMeta) : Bool × Store :=
  match processUserProfilePicture env s user with
  | (false, s1) => (false, s1)
  | (true, s1) => (true, processUserMeta s1 user)

/-- The media-bearing kinds for which `handle_inter_message` runs
`process_files`. -/
def isMediaKind : MessageKind → Bool
| .audio _ => true
| .voice _ => true
| .photo _ _ _ => true
| .document _ _ => true
| .sticker _ => true
| .video _ _ => true
| .videoNote _ => true
| _ => false

/-- `handle_inter_message` of `telegram_handler.rs`: media pipeline,
then the message block, then the user upsert.  The flag is `false`
when a panic aborted the run (partial writes stay in the store). -/
def handleInterMessage (env : Env) (s : Store) (interMsg : InterMessage) :
    Bool × Store :=
  let filesRes :=
    if isMediaKind interMsg.kind then processFiles env s interMsg
    else ([], s)
  match handleMessage env filesRes.2 interMsg filesRes.1 with
  | (false, s2) => (false, s2)
  | (true, s2) =>
      match interMsg.fromUser with
      | some fromUser => processUser env s2 fromUser
      | none => (true, s2)

/-- The order in which `run` hands `InterMessage`s of one update to
`handle_inter_message`: the immediate `reply_to_message` (if any)
first, then the outer message. -/
def ingestedSeq (m : InterMessage) : List InterMessage :=
  (match m.replyTo with
   | some r => [r]
   | none => []) ++ [m]

/-- Ingest a list of messages in order, stopping at the first panic
(an error aborts the current `run`). -/
def ingestList (env : Env) : Store → List InterMessage → Bool × Store
| s, [] => (true, s)
| s, x :: rest =>
    match handleInterMessage env s x with
    | (true, s') => ingestList env s' rest
    | (false, s') => (false, s')

/-- Processing of one update in `run`. -/
def ingestUpdate (env : Env) (s : Store) (m : InterMessage) : Bool × Store :=
  ingestList env s (ingestedSeq m)

/-- The store after a sequence of updates.  The fold continues past a
failed update: the supervisor restarts `run` on the same store and the
long-poll redelivers later updates. -/
def runUpdates (env : Env) : Store → List InterMessage → Store
| s, [] => s
| s, m :: rest => runUpdates env (ingestUpdate env s m).2 rest

/-- `resolve_user_meta` of `utils.rs`: `username`, else
`first last`, else `first`. -/
def resolveUserMeta (user : UserMeta) : String :=
  match user.username with
  | some username => username
  | none =>
      match user.lastName with
      | some lastName => user.firstName ++ " " ++ lastName
      | none => user.firstName

/-- `resolve_user_meta_with_id` of `utils.rs`. -/
def resolveUserMetaWithId (user : UserMeta) : String :=
  match user.username with
  | some username => username ++ " (" ++ user.id ++ ")"
  | none =>
      match user.lastName with
      | some lastName =>
          user.firstName ++ " " ++ lastName ++ " (" ++ user.id ++ ")"
      | none => user.firstName ++ " (" ++ user.id ++ ")"

/-- `resolve_user` of `utils.rs`: read `user:meta:<id>`, render the
ladder, fall back to the raw id. -/
def resolveUser (s : Store) (userId : String) (withId : Bool) : String :=
  match s (Key.userMeta userId) with
  | some (.userMetaRecord user) =>
      if withId then resolveUserMetaWithId user else resolveUserMeta user
  | _ => userId

/-- `resolve_chat_name` of `utils.rs`.  Only a tagged `ChatMeta` JSON
deserializes as `ChatMeta`; the bare `UserMeta`/`ChannelMeta` shapes
written under redirection fail to parse and fall through to
`resolve_user`. -/
def resolveChatName (s : Store) (chatId : String) : String :=
  match s (Key.chatMeta chatId) with
  | some (.chatMetaJson meta) =>
      match meta with
      | .user user =>
          (match user.username with
           | some username => username ++ " (" ++ user.id ++ ")"
           | none =>
               match user.lastName with
               | some lastName =>
                   user.firstName ++ " " ++ lastName ++ " (" ++ user.id ++ ")"
               | none => user.firstName ++ " (" ++ user.id ++ ")")
      | .group group => group.title ++ " (" ++ group.id ++ ")"
      | .superGroup group =>
          (group.username.getD group.title) ++ " (" ++ group.id ++ ")"
      | .channel channel =>
          (match channel.username with
           | some username => username ++ " (" ++ channel.id ++ ")"
           | none => channel.id)
      | .unknown rawChat =>
          (match rawChat.username with
           | some username => username ++ " (" ++ rawChat.id ++ ")"
           | none =>
               match rawChat.firstName, rawChat.lastName with
               | some firstName, some lastName =>
                   firstName ++ " " ++ lastName ++ " (" ++ rawChat.id ++ ")"
               | some firstName, none => firstName ++ " (" ++ rawChat.id ++ ")"
               | none, _ =>
                   match rawChat.title with
                   | some title => title ++ " (" ++ rawChat.id ++ ")"
                   | none => rawChat.id)
  | _ => resolveUser s chatId true

/-- `FileRequestType` of `renderer/get_file.rs`. -/
inductive FileRequestType where
| user
| image
| document
| video
| videoThumb
| unknown
deriving DecidableEq

/-- `From<String> for FileRequestType`. -/
def fileRequestTypeFromString (s : String) : FileRequestType :=
  if s = "user" then .user
  else if s = "image" then .image
  else if s = "document" then .document
  else if s = "video" then .video
  else if s = "video_thumb" then .videoThumb
  else .unknown

/-- The responses of `renderer/get_file.rs::get_file`:
`unknownType404` is the 404 with body `"Unknown file request type"`,
`rejectNotFound` the `warp::reject::not_found()` rejection. -/
inductive FileResponse where
| unknownType404
| rejectNotFound
| ok (contentType : String) (body : List Nat)
deriving DecidableEq

/-- `get_file` of `renderer/get_file.rs`.  `sniff` models
`image::guess_format` composed with the MIME table (returning `none`
when the format is unrecognized or unmapped). -/
def getFileEndpoint (s : Store) (sniff : List Nat → Option String)
    (fileRequestType fileId : String) : FileResponse :=
  let t := fileRequestTypeFromString fileRequestType
  if t = .unknown then .unknownType404
  else
    let fileKey :=
      Key.file
        (match t with
         | .user => FileEntryType.user
         | .videoThumb => FileEntryType.videoThumb
         | _ => FileEntryType.chat)
        fileId
    match (s fileKey).bind Value.asBytes with
    | none => .rejectNotFound
    | some file =>
        .ok
          (match t with
           | .user => (sniff file).getD "application/octet-stream"
           | .image => (sniff file).getD "application/octet-stream"
           | .videoThumb => (sniff file).getD "application/octet-stream"
           | _ => "application/octet-stream")
          file

/-- The first list is a prefix of the second (by characters). -/
def charListLeads : List Char → List Char → Bool
| [], _ => true
| _ :: _, [] => false
| a :: as, b :: bs => a = b && charListLeads as bs

/-- Rust `str::starts_with` on our strings. -/
def strStartsWith (s p : String) : Bool :=
  charListLeads p.data s.data

/-- Rust `str::ends_with` on our strings. -/
def strEndsWith (s p : String) : Bool :=
  charListLeads p.data.reverse s.data.reverse

/-- Take up to `n` leading decimal digits. -/
def takeDigitsUpTo : Nat → List Char → List Char × List Char
| 0, cs => ([], cs)
| _ + 1, [] => ([], [])
| n + 1, c :: cs =>
    if c.isDigit then
      let r := takeDigitsUpTo n cs
      (c :: r.1, r.2)
    else ([], c :: cs)

/-- Numeric value of a digit string. -/
def digitsToNat (ds : List Char) : Nat :=
  ds.foldl (fun a c => a * 10 + (c.toNat - 48)) 0

/-- Gregorian leap year. -/
def isLeapYear (y : Int) : Bool :=
  y % 4 = 0 && (y % 100 ≠ 0 || y % 400 = 0)

/-- Days in a month of the proleptic Gregorian calendar. -/
def daysInMonth (y m : Int) : Int :=
  if m = 2 then (if isLeapYear y then 29 else 28)
  else if m = 4 || m = 6 || m = 9 || m = 11 then 30
  else 31

/-- Modelled from chrono's documented contract:
`NaiveDate::parse_from_str(s, "%Y-%m-%d")` parses a year, `-`, a
one/two-digit month, `-`, a one/two-digit day, validates the calendar
date, and fails when any input remains unconsumed (`TOO_LONG`). -/
def parseNaiveDate (s : String) : Option (Int × Int × Int) :=
  let r1 := takeDigitsUpTo 4 s.data
  if r1.1.isEmpty then none
  else
    match r1.2 with
    | '-' :: r2 =>
        let r3 := takeDigitsUpTo 2 r2
        if r3.1.isEmpty then none
        else
          match r3.2 with
          | '-' :: r4 =>
              let r5 := takeDigitsUpTo 2 r4
              if r5.1.isEmpty then none
              else if !r5.2.isEmpty then none
              else
                let y : Int := digitsToNat r1.1
                let mo : Int := digitsToNat r3.1
                let d : Int := digitsToNat r5.1
                if 1 ≤ mo && mo ≤ 12 && 1 ≤ d && d ≤ daysInMonth y mo then
                  some (y, mo, d)
                else none
          | _ => none
    | _ => none

/-- Days since 1970-01-01 of a civil date (Howard Hinnant's
`days_from_civil`, the algorithm underlying chrono's calendar). -/
def daysFromCivil (y m d : Int) : Int :=
  let y1 := if m ≤ 2 then y - 1 else y
  let era := (if 0 ≤ y1 then y1 else y1 - 399).tdiv 400
  let yoe := y1 - era * 400
  let doy := (153 * (if 2 < m then m - 3 else m + 9) + 2).tdiv 5 + d - 1
  let doe := yoe * 365 + yoe.tdiv 4 - yoe.tdiv 100 + doy
  era * 146097 + doe - 719468

/-- `trim_end_matches('0')` on a decimal rendering. -/
def trimTrailingZeros (s : String) : String :=
  String.mk ((s.data.reverse.dropWhile (fun c => c = '0')).reverse)

/-- Two-digit zero-padded rendering of `0 ≤ n < 100`. -/
def formatTwo (n : Int) : String :=
  if n < 10 then "0" ++ toString n else toString n

/-- `%H:%M:%S` of a unix-second timestamp. -/
def formatHMS (t : Int) : String :=
  let sec := t.emod 86400
  formatTwo (sec.tdiv 3600) ++ ":" ++ formatTwo ((sec.emod 3600).tdiv 60)
    ++ ":" ++ formatTwo (sec.emod 60)

/-- One rendered row of the HTML day view (`Message`, `Media` and
`Membership` variants only; others are skipped). -/
inductive RenderedRow where
| message (time : String) (nick : String) (content : String)
| mediaRow (time : String) (nick : String) (caption : Option String)
           (imgUri : Option String)
| membershipRow (time : String) (nick : String)
                (membershipType : LogItemMembershipType)

/-- Username shown for a row. -/
def nickOf (s : Store) (userId : Option String) : String :=
  match userId with
  | some userId => resolveUser s userId false
  | none => "Unknown"

/-- The HTML row for one `(timestamp, value)` pair of the day scan:
rows with an unparsable timestamp or value, and `LogItem` variants
other than `Message`/`Media`/`Membership`, are skipped.  Only the
*last* `files` entry of a `Media` row is rendered as an `<img>`. -/
def renderHtmlRow (s : Store) (row : String × Value) : Option RenderedRow :=
  match row.1.toInt? with
  | none => none
  | some day =>
      match row.2 with
      | .logItem msg =>
          match msg with
          | .message userId _ text _ _ =>
              some (.message (formatHMS day) (nickOf s userId) text)
          | .media userId _ caption _ files _ =>
              some (.mediaRow (formatHMS day) (nickOf s userId) caption
                (files.getLast?.map fun f => "/file/image/" ++ f))
          | .membership userId _ membershipType _ =>
              some (.membershipRow (formatHMS day) (nickOf s userId)
                membershipType)
          | _ => none
      | _ => none

/-- The JSON rewriting of `chat_listing`: `Image` and `Sticker` media
file-ids become `/file/image/<id>` URLs. -/
def rewriteImageFiles (val : LogItem) : LogItem :=
  match val with
  | .media userId time caption mediaType files source =>
      match mediaType with
      | .image _ _ =>
          .media userId time caption mediaType
            (files.map fun f => "/file/image/" ++ f) source
      | .sticker _ _ =>
          .media userId time caption mediaType
            (files.map fun f => "/file/image/" ++ f) source
      | _ => val
  | _ => val

/-- The JSON row for one `(timestamp, value)` pair: rows that fail to
deserialize as a `LogItem` are skipped. -/
def jsonRow (row : String × Value) : Option LogItem :=
  match row.2 with
  | .logItem val => some (rewriteImageFiles val)
  | _ => none

/-- The responses of `renderer/chat_listing.rs::chat_listing`:
`htmlLatestMissing` is the header-only page for `latest` with no
indexed day; `htmlInvalidDate` has body `"invalid date"`;
`jsonInvalidDate status` is the object with fields
`status`, `error: true`, `data: null`. -/
inductive ListingResponse where
| htmlLatestMissing (chatName : String)
| htmlInvalidDate
| jsonInvalidDate (status : String)
| jsonItems (items : List LogItem)
| htmlListing (chatName : String) (date : String) (rows : List RenderedRow)

/-- The bounded range scans of the renderer, kept abstract: `iterRows`
models `chat_listing_iter` (the reverse scan of
`chat:<chat-id>:<time_start>` ≤ key < `chat:<chat-id>:<time_end>`,
yielding the key's timestamp segment and the value) and `latestDay`
models `find_latest_chat_day`. -/
structure RenderEnv where
  iterRows : String → String → String → List (String × Value)
  latestDay : String → Option String

/-- `chat_listing` of `renderer/chat_listing.rs`.  Mirrors the source:
`latest` resolution, output format from the raw `date_query` suffix,
date parse of the (unstripped) `date`, millisecond window bounds with
trailing zeros trimmed, then JSON or HTML rendering. -/
def chatListing (renv : RenderEnv) (s : Store) (chatId dateQuery : String) :
    ListingResponse :=
  let dateRes : Option String :=
    if strStartsWith dateQuery "latest" then renv.latestDay chatId
    else some dateQuery
  match dateRes with
  | none => .htmlLatestMissing (resolveChatName s chatId)
  | some date =>
      let outFormat := if strEndsWith dateQuery ".json" then "json" else "html"
      let chatName := resolveChatName s chatId
      match parseNaiveDate date with
      | none =>
          if outFormat = "html" then .htmlInvalidDate
          else .jsonInvalidDate ("invalid date (got " ++ date ++ ")")
      | some ymd =>
          let dayNum := daysFromCivil ymd.1 ymd.2.1 ymd.2.2
          let timeStart := trimTrailingZeros (toString (dayNum * 86400000))
          let timeEnd := trimTrailingZeros (toString ((dayNum + 1) * 86400000))
          let rows := renv.iterRows chatId timeStart timeEnd
          if outFormat = "json" then
            .jsonItems (rows.filterMap jsonRow)
          else
            .htmlListing chatName date (rows.filterMap (renderHtmlRow s))

/-- Lookup of `chat:<c>:<t>` decoded as a `LogItem`. -/
def Store.getLogItem (s : Store) (c : String) (t : Int) : Option LogItem :=
  match s (Key.message c t) with
  | some (.logItem l) => some l
  | _ => none

/-- Lookup of `chat_ref:<c>:<message-id>` decoded as a timestamp. -/
def Store.getRefTime (s : Store) (c : String) (mid : Int) : Option Int :=
  match s (Key.chatRef c mid) with
  | some (.time t) => some t
  | _ => none

lemma getRefTime_put_other {s : Store} {k : Key} {v : Value}
    (h : ∀ c0 mid0, k ≠ Key.chatRef c0 mid0) (c : String) (mid : Int) :
    (s.put k v).getRefTime c mid = s.getRefTime c mid := by
  unfold Store.getRefTime Store.put
  rw [if_neg (fun he => h c mid he.symm)]

lemma getRefTime_put_chatRef (s : Store) (c' : String) (mid' : Int)
    (t : Int) (c : String) (mid : Int) :
    (s.put (Key.chatRef c' mid') (.time t)).getRefTime c mid =
      if c = c' ∧ mid = mid' then some t else s.getRefTime c mid := by
  unfold Store.getRefTime Store.put
  by_cases he : c = c' ∧ mid = mid'
  · obtain ⟨rfl, rfl⟩ := he
    simp
  · rw [if_neg he, if_neg (by simp_all)]

lemma getLogItem_put_other {s : Store} {k : Key} {v : Value}
    (h : ∀ c0 t0, k ≠ Key.message c0 t0) (c : String) (t : Int) :
    (s.put k v).getLogItem c t = s.getLogItem c t := by
  unfold Store.getLogItem Store.put
  rw [if_neg (fun he => h c t he.symm)]

lemma getLogItem_put_message (s : Store) (c' : String) (t' : Int)
    (l : LogItem) (c : String) (t : Int) :
    (s.put (Key.message c' t') (.logItem l)).getLogItem c t =
      if c = c' ∧ t = t' then some l else s.getLogItem c t := by
  unfold Store.getLogItem Store.put
  by_cases he : c = c' ∧ t = t'
  · obtain ⟨rfl, rfl⟩ := he
    simp
  · rw [if_neg he, if_neg (by simp_all)]

/-- The record/ref consistency invariant: every `chat_ref:<c>:<mid>`
entry with value `t` points at an existing `chat:<c>:<t>` record that
decodes to a `LogItem` whose recorded source message was archived
under chat-id `c` with effective timestamp `t`. -/
def RefInv (s : Store) : Prop :=
  ∀ c mid t, s.getRefTime c mid = some t →
    ∃ l m, s.getLogItem c t = some l ∧ l.source = some m ∧
      handleMessageChatId m = c ∧ establishedDate m = t

lemma refInv_empty : RefInv emptyStore := by
  intro c mid t h
  simp [Store.getRefTime, emptyStore] at h

lemma refInv_put_other {s : Store} {k : Key} {v : Value}
    (h1 : ∀ c0 mid0, k ≠ Key.chatRef c0 mid0)
    (h2 : ∀ c0 t0, k ≠ Key.message c0 t0)
    (h : RefInv s) : RefInv (s.put k v) := by
  intro c mid t href
  rw [getRefTime_put_other h1] at href
  obtain ⟨l, m, hitem, hsrc, hcid, hest⟩ := h c mid t href
  exact ⟨l, m, by rw [getLogItem_put_other h2]; exact hitem, hsrc, hcid, hest⟩

lemma refInv_put_file {s : Store} (entry : FileEntryType) (fileId : String)
    (v : Value) (h : RefInv s) : RefInv (s.put (Key.file entry fileId) v) :=
  refInv_put_other (by intro c0 mid0 he; cases he)
    (by intro c0 t0 he; cases he) h

lemma refInv_foldl_file {l : List (String × List Nat)} :
    ∀ {s : Store}, RefInv s →
      RefInv (l.foldl
        (fun st fb => st.put (buildFileKey .chat fb.1) (.bytes fb.2)) s) := by
  induction l with
  | nil => intro s h; exact h
  | cons fb rest ih =>
      intro s h
      exact ih (refInv_put_file _ _ _ h)

lemma refInv_processFiles (env : Env) (s : Store) (m : InterMessage)
    (h : RefInv s) : RefInv (processFiles env s m).2 :=
  refInv_foldl_file h

lemma refInv_processPhotosize (env : Env) (s : Store) (p : PhotoSize)
    (fid : Option String) (h : RefInv s) :
    RefInv (processPhotosize env s p fid).2 := by
  simp only [processPhotosize]
  split_ifs with hk
  · exact h
  · cases hr : env.resolve p.fileId with
    | none => exact h
    | some path =>
        dsimp only
        cases hd : env.download path with
        | none => exact h
        | some f =>
            dsimp only
            split_ifs with hi
            · exact refInv_put_file _ _ _ h
            · exact h

lemma refInv_buildLogItem (env : Env) (s : Store) (m : InterMessage)
    (files : List String) (h : RefInv s) :
    RefInv (buildLogItem env s m files).2 := by
  unfold buildLogItem
  cases hk : m.kind <;> simp only
  case photo data caption mgid =>
    cases findBiggestPhoto data <;> simp only <;> exact h
  case video data caption =>
    cases data.thumb with
    | none => exact h
    | some thumb => exact refInv_processPhotosize env s thumb none h
  case videoNote data =>
    cases data.thumb with
    | none => exact h
    | some thumb => exact refInv_processPhotosize env s thumb none h
  case newChatPhoto data =>
    cases findBiggestPhoto data with
    | none => exact h
    | some photoSize => exact refInv_processPhotosize env s photoSize none h
  all_goals exact h

lemma buildLogItem_spec {env : Env} {s : Store} {m : InterMessage}
    {files : List String} {l : LogItem} {s' : Store}
    (h : buildLogItem env s m files = (some l, s')) :
    l.source = some m ∧ l.time = m.date := by
  unfold buildLogItem at h
  cases hk : m.kind <;> rw [hk] at h <;> dsimp only at h
  case photo data caption mgid =>
    cases hfb : findBiggestPhoto data <;> rw [hfb] at h <;>
      simp only [Prod.mk.injEq, Option.some.injEq, reduceCtorEq, false_and] at h
    obtain ⟨h1, _⟩ := h
    subst h1
    exact ⟨rfl, rfl⟩
  case newChatPhoto data =>
    cases hfb : findBiggestPhoto data <;> rw [hfb] at h <;>
      simp only [Prod.mk.injEq, Option.some.injEq, reduceCtorEq, false_and] at h
    obtain ⟨h1, _⟩ := h
    subst h1
    exact ⟨rfl, rfl⟩
  all_goals
    simp only [Prod.mk.injEq, Option.some.injEq] at h
  all_goals
    obtain ⟨h1, _⟩ := h
  all_goals
    subst h1
  all_goals
    exact ⟨rfl, rfl⟩

lemma refInv_handleMessage (env : Env) (s : Store) (m : InterMessage)
    (files : List String) (h : RefInv s) :
    RefInv (handleMessage env s m files).2 := by
  unfold handleMessage
  cases hb : buildLogItem env s m files with
  | mk ob s1 =>
      have hs1 : RefInv s1 := by
        have := refInv_buildLogItem env s m files h
        rw [hb] at this
        exact this
      cases ob with
      | none => exact hs1
      | some l =>
          dsimp only
          have hLsrc : l.source = some m := (buildLogItem_spec hb).1
          intro c' mid' t' href
          rw [getRefTime_put_other (by intro c0 mid0 he; cases he)] at href
          rw [getRefTime_put_chatRef] at href
          by_cases hcm : c' = handleMessageChatId m ∧ mid' = m.id
          · rw [if_pos hcm] at href
            have ht' : establishedDate m = t' := by
              injection href
            refine ⟨l, m, ?_, hLsrc, hcm.1.symm, ht'⟩
            rw [getLogItem_put_other (by intro c0 t0 he; cases he)]
            rw [getLogItem_put_other (by intro c0 t0 he; cases he)]
            rw [getLogItem_put_other (by intro c0 t0 he; cases he)]
            rw [getLogItem_put_other (by intro c0 t0 he; cases he)]
            rw [getLogItem_put_message]
            rw [if_pos ⟨hcm.1, ht'.symm⟩]
          · rw [if_neg hcm] at href
            rw [getRefTime_put_other (by intro c0 mid0 he; cases he)] at href
            rw [getRefTime_put_other (by intro c0 mid0 he; cases he)] at href
            rw [getRefTime_put_other (by intro c0 mid0 he; cases he)] at href
            obtain ⟨l0, m0, hit, hsrc0, hcid0, hest0⟩ := hs1 c' mid' t' href
            by_cases hct : c' = handleMessageChatId m ∧ t' = establishedDate m
            · refine ⟨l, m, ?_, hLsrc, hct.1.symm, hct.2.symm⟩
              rw [getLogItem_put_other (by intro c0 t0 he; cases he)]
              rw [getLogItem_put_other (by intro c0 t0 he; cases he)]
              rw [getLogItem_put_other (by intro c0 t0 he; cases he)]
              rw [getLogItem_put_other (by intro c0 t0 he; cases he)]
              rw [getLogItem_put_message]
              rw [if_pos hct]
            · refine ⟨l0, m0, ?_, hsrc0, hcid0, hest0⟩
              rw [getLogItem_put_other (by intro c0 t0 he; cases he)]
              rw [getLogItem_put_other (by intro c0 t0 he; cases he)]
              rw [getLogItem_put_other (by intro c0 t0 he; cases he)]
              rw [getLogItem_put_other (by intro c0 t0 he; cases he)]
              rw [getLogItem_put_message]
              rw [if_neg hct]
              exact hit

lemma handleMessage_writes (env : Env) (s : Store) (m : InterMessage)
    (files : List String)
    (hok : (handleMessage env s m files).1 = true) :
    ∃ l, (handleMessage env s m files).2.getLogItem
          (handleMessageChatId m) (establishedDate m) = some l ∧
        l.time = m.date ∧ l.source = some m ∧
        (handleMessage env s m files).2.getRefTime
          (handleMessageChatId m) m.id = some (establishedDate m) := by
  unfold handleMessage at hok ⊢
  cases hb : buildLogItem env s m files with
  | mk ob s1 =>
      rw [hb] at hok
      cases ob with
      | none => cases hok
      | some l =>
          dsimp only
          obtain ⟨hsrc, htime⟩ := buildLogItem_spec hb
          refine ⟨l, ?_, htime, hsrc, ?_⟩
          · rw [getLogItem_put_other (by intro c0 t0 he; cases he)]
            rw [getLogItem_put_other (by intro c0 t0 he; cases he)]
            rw [getLogItem_put_other (by intro c0 t0 he; cases he)]
            rw [getLogItem_put_other (by intro c0 t0 he; cases he)]
            rw [getLogItem_put_message]
            rw [if_pos ⟨rfl, rfl⟩]
          · rw [getRefTime_put_other (by intro c0 mid0 he; cases he)]
            rw [getRefTime_put_chatRef]
            rw [if_pos ⟨rfl, rfl⟩]

lemma refInv_processUserProfilePicture (env : Env) (s : Store)
    (user : UserMeta) (h : RefInv s) :
    RefInv (processUserProfilePicture env s user).2 := by
  unfold processUserProfilePicture
  cases env.profilePhotos user.id with
  | none => exact h
  | some photoSizes =>
      dsimp only
      cases findBiggestPhoto photoSizes with
      | none => exact h
      | some photo =>
          dsimp only
          cases env.resolve photo.fileId with
          | none => exact h
          | some filePath =>
              dsimp only
              cases env.download filePath with
              | none => exact h
              | some file =>
                  dsimp only
                  split_ifs
                  · exact refInv_put_file _ _ _ h
                  · exact h

lemma refInv_processUser (env : Env) (s : Store) (user : UserMeta)
    (h : RefInv s) : RefInv (processUser env s user).2 := by
  unfold processUser
  cases hp : processUserProfilePicture env s user with
  | mk ok s1 =>
      have hs1 : RefInv s1 := by
        have := refInv_processUserProfilePicture env s user h
        rw [hp] at this
        exact this
      cases ok with
      | false => exact hs1
      | true =>
          exact refInv_put_other (by intro c0 mid0 he; cases he)
            (by intro c0 t0 he; cases he) hs1

lemma refInv_handleInterMessage (env : Env) (s : Store) (m : InterMessage)
    (h : RefInv s) : RefInv (handleInterMessage env s m).2 := by
  unfold handleInterMessage
  dsimp only
  have hfiles : RefInv (if isMediaKind m.kind then processFiles env s m
      else ([], s)).2 := by
    split_ifs
    · exact refInv_processFiles env s m h
    · exact h
  cases hm : handleMessage env
      (if isMediaKind m.kind then processFiles env s m else ([], s)).2 m
      (if isMediaKind m.kind then processFiles env s m else ([], s)).1 with
  | mk ok s2 =>
      have hs2 : RefInv s2 := by
        have := refInv_handleMessage env
          (if isMediaKind m.kind then processFiles env s m else ([], s)).2 m
          (if isMediaKind m.kind then processFiles env s m else ([], s)).1
          hfiles
        rw [hm] at this
        exact this
      cases ok with
      | false => exact hs2
      | true =>
          dsimp only
          cases m.fromUser with
          | none => exact hs2
          | some fromUser => exact refInv_processUser env s2 fromUser hs2

lemma refInv_ingestList (env : Env) (msgs : List InterMessage) :
    ∀ s : Store, RefInv s → RefInv (ingestList env s msgs).2 := by
  induction msgs with
  | nil => intro s h; exact h
  | cons x rest ih =>
      intro s h
      unfold ingestList
      cases hx : handleInterMessage env s x with
      | mk ok s' =>
          have hs' : RefInv s' := by
            have := refInv_handleInterMessage env s x h
            rw [hx] at this
            exact this
          cases ok with
          | false => exact hs'
          | true => exact ih s' hs'

lemma refInv_ingestUpdate (env : Env) (s : Store) (m : InterMessage)
    (h : RefInv s) : RefInv (ingestUpdate env s m).2 :=
  refInv_ingestList env (ingestedSeq m) s h

lemma refInv_runUpdates (env : Env) (msgs : List InterMessage) :
    ∀ s : Store, RefInv s → RefInv (runUpdates env s msgs) := by
  induction msgs with
  | nil => intro s h; exact h
  | cons m rest ih =>
      intro s h
      exact ih _ (refInv_ingestUpdate env s m h)

/-- The forward origin's chat-id as the spec describes it: the user-id
for a forward from a user, the channel-id for a forward from a channel,
the group chat-id for a hidden group admin; a hidden channel user
carries no origin id. -/
def forwardOriginChatId : ForwardFromMeta → Option String
| .user user => some user.id
| .channel channel _ => some channel.id
| .channelHiddenUser _ => none
| .hiddenGroupAdmin chatId _ => some chatId

/-- The size-filter predicate of the media pipeline as the spec states
it: an attachment is within limits iff its declared size is present and
at most `MAX_FILE_SIZE`. -/
def sizeWithinLimit : Option Int → Bool
| some x => x ≤ MAX_FILE_SIZE
| none => false

/-- All `(reply target, replying message)` pairs along the reply chain
hanging off a message. -/
def replyPairs : InterMessage → List (InterMessage × InterMessage)
| .mk i f d c fw (some r) e k =>
    (r, .mk i f d c fw (some r) e k) :: replyPairs r
| .mk _ _ _ _ _ none _ _ => []

/-- `x` occurs strictly before `y` in `l`. -/
def seqBefore (l : List InterMessage) (x y : InterMessage) : Prop :=
  ∃ i j : Nat, i < j ∧ l.get? i = some x ∧ l.get? j = some y

lemma replyTo_sizeOf {m r : InterMessage} (h : m.replyTo = some r) :
    sizeOf r < sizeOf m := by
  cases m with
  | mk i f d c fw rt e k =>
      simp only [InterMessage.replyTo] at h
      subst h
      simp
      omega

lemma replyPairs_sizeOf :
    ∀ (m x y : InterMessage), (x, y) ∈ replyPairs m →
      sizeOf x < sizeOf y ∧ sizeOf y ≤ sizeOf m
| .mk i f d c fw (some r) e k, x, y, h => by
    rw [replyPairs] at h
    rcases List.mem_cons.mp h with he | hm
    · obtain ⟨h1, h2⟩ := Prod.mk.injEq .. ▸ he
      subst h1
      subst h2
      refine ⟨?_, le_refl _⟩
      have : (InterMessage.mk i f d c fw (some x) e k).replyTo = some x := rfl
      exact replyTo_sizeOf this
    · have ih := replyPairs_sizeOf r x y hm
      have hr : sizeOf r < sizeOf (InterMessage.mk i f d c fw (some r) e k) :=
        replyTo_sizeOf rfl
      exact ⟨ih.1, le_trans ih.2 (le_of_lt hr)⟩
| .mk _ _ _ _ _ none _ _, x, y, h => by
    rw [replyPairs] at h
    cases h

lemma photoFileRefs_all {resolve : String → Option String}
    {data : List PhotoSize}
    (hsz : ∀ p ∈ data, ∃ x, p.fileSize = some x ∧ x ≤ MAX_FILE_SIZE)
    (hres : ∀ p ∈ data, ∃ path, resolve p.fileId = some path) :
    (photoFileRefs resolve data).map Prod.fst = data.map (fun p => p.fileId) ∧
    ∀ pr ∈ photoFileRefs resolve data,
      resolve pr.1 = some pr.2 ∧ ∃ p ∈ data, p.fileId = pr.1 := by
  induction data with
  | nil => exact ⟨rfl, by intro pr h; cases h⟩
  | cons p rest ih =>
      obtain ⟨x, hx, hxle⟩ := hsz p (by simp)
      obtain ⟨path, hpath⟩ := hres p (by simp)
      obtain ⟨ih1, ih2⟩ := ih
        (fun q hq => hsz q (by simp [hq]))
        (fun q hq => hres q (by simp [hq]))
      have hrefs : photoFileRefs resolve (p :: rest) =
          (p.fileId, path) :: photoFileRefs resolve rest := by
        simp [photoFileRefs, hx, hpath, hxle]
      constructor
      · rw [hrefs]
        simpa using ih1
      · intro pr hpr
        rw [hrefs] at hpr
        rcases List.mem_cons.mp hpr with rfl | hpr
        · exact ⟨hpath, p, by simp⟩
        · obtain ⟨h1, q, hq, hq2⟩ := ih2 pr hpr
          exact ⟨h1, q, by simp [hq], hq2⟩

lemma getFilesLoop_all {env : Env} {s : Store}
    {refs : List (String × String)}
    (hraw : ∀ r ∈ refs, s (Key.raw r.1) = none)
    (hdl : ∀ r ∈ refs, ∃ b, env.download r.2 = some b) :
    (getFilesLoop env s refs).map Prod.fst = refs.map Prod.fst ∧
    ∀ r ∈ refs, ∃ b, (r.1, b) ∈ getFilesLoop env s refs := by
  induction refs with
  | nil => exact ⟨rfl, by intro r h; cases h⟩
  | cons r rest ih =>
      obtain ⟨fid, path⟩ := r
      obtain ⟨b, hb⟩ := hdl (fid, path) (by simp)
      have hkme : keyMayExist s (Key.raw fid) = false := by
        simpa [keyMayExist] using congrArg Option.isSome
          (hraw (fid, path) (by simp))
      obtain ⟨ih1, ih2⟩ := ih
        (fun q hq => hraw q (by simp [hq]))
        (fun q hq => hdl q (by simp [hq]))
      have hloop : getFilesLoop env s ((fid, path) :: rest) =
          (fid, b) :: getFilesLoop env s rest := by
        simp [getFilesLoop, hkme, hb]
      constructor
      · rw [hloop]
        simpa using ih1
      · intro q hq
        rcases List.mem_cons.mp hq with rfl | hq
        · exact ⟨b, by rw [hloop]; simp⟩
        · obtain ⟨b', hb'⟩ := ih2 q hq
          exact ⟨b', by rw [hloop]; simp [hb']⟩

lemma foldl_file_holds {l : List (String × List Nat)} :
    ∀ {s : Store} {fid : String},
      (∃ b, s (buildFileKey .chat fid) = some (.bytes b)) →
      ∃ b, (l.foldl
        (fun st fb => st.put (buildFileKey .chat fb.1) (.bytes fb.2)) s)
          (buildFileKey .chat fid) = some (.bytes b) := by
  induction l with
  | nil => intro s fid h; exact h
  | cons fb rest ih =>
      intro s fid h
      apply ih
      by_cases he : buildFileKey FileEntryType.chat fid =
          buildFileKey FileEntryType.chat fb.1
      · exact ⟨fb.2, by simp [Store.put, he]⟩
      · obtain ⟨b, hb⟩ := h
        exact ⟨b, by simp [Store.put, he]; exact hb⟩

lemma foldl_file_mem {l : List (String × List Nat)} :
    ∀ {s : Store} {fid : String} {b : List Nat}, (fid, b) ∈ l →
      ∃ b', (l.foldl
        (fun st fb => st.put (buildFileKey .chat fb.1) (.bytes fb.2)) s)
          (buildFileKey .chat fid) = some (.bytes b') := by
  induction l with
  | nil => intro s fid b h; cases h
  | cons fb rest ih =>
      intro s fid b h
      rcases List.mem_cons.mp h with rfl | h
      · have hstart : (Store.put s (buildFileKey .chat fid) (.bytes b))
            (buildFileKey .chat fid) = some (.bytes b) := by
          simp [Store.put]
        exact @foldl_file_holds rest
          (s.put (buildFileKey .chat fid) (.bytes b)) fid ⟨b, hstart⟩
      · exact ih h

/-- Oracles that fail every upstream call. -/
def envNone : Env :=
  { resolve := fun _ => none, download := fun _ => none,
    imageOk := fun _ => false, profilePhotos := fun _ => none }

/-- Oracles where every file resolves to a path equal to its id and
downloads as the byte `[7]`. -/
def envC4 : Env :=
  { resolve := fun fid => some fid, download := fun _ => some [7],
    imageOk := fun _ => true, profilePhotos := fun _ => none }

/-- Oracles resolving everything to path `pF` downloading as `[9]`. -/
def envC5 : Env :=
  { resolve := fun _ => some "pF", download := fun _ => some [9],
    imageOk := fun _ => true, profilePhotos := fun _ => none }

/-- A group chat with id `-100`. -/
def groupChat : ChatMeta :=
  .group { id := "-100", title := "G",
           allMembersAreAdministrators := false, inviteLink := none }

/-- The private-chat partner with id `7`. -/
def privUser : UserMeta :=
  { id := "7", firstName := "P", lastName := none, username := none,
    isBot := false, languageCode := none }

/-- A Private-User chat. -/
def privChat : ChatMeta := .user privUser

/-- A plain text message, id 1, date 100, in the group. -/
def msgText1 : InterMessage :=
  .mk 1 none 100 groupChat none none none (.text "hi" [])

/-- A plain text message, id 2, same date 100, in the group. -/
def msgText2 : InterMessage :=
  .mk 2 none 100 groupChat none none none (.text "yo" [])

/-- A user whose message was forwarded. -/
def fwdUser : UserMeta :=
  { id := "42", firstName := "F", lastName := none, username := none,
    isBot := false, languageCode := none }

/-- A forwarded message in the group: own date 100, forward date 50. -/
def msgFwd : InterMessage :=
  .mk 5 none 100 groupChat (some { date := 50, fromMeta := .user fwdUser })
    none none (.text "old" [])

/-- A forward from a hidden channel user (no origin chat-id). -/
def fwdHidden : ForwardMeta := { date := 60, fromMeta := .channelHiddenUser "anon" }

/-- A hidden-user forward received in the private chat. -/
def msgHiddenFwd : InterMessage :=
  .mk 6 none 100 privChat (some fwdHidden) none none (.text "x" [])

/-- A forward from channel `-200`. -/
def fwdChan : ForwardMeta :=
  { date := 55, fromMeta := .channel
      { id := "-200", title := "C", username := none, inviteLink := none } 9 }

/-- A channel-post forward received in the private chat. -/
def msgChanFwd : InterMessage :=
  .mk 8 none 100 privChat (some fwdChan) none none (.text "y" [])

/-- Reply-chain leaf, id 11. -/
def msgA : InterMessage :=
  .mk 11 none 10 groupChat none none none (.text "a" [])

/-- Reply to `msgA`, id 12. -/
def msgB : InterMessage :=
  .mk 12 none 20 groupChat none (some msgA) none (.text "b" [])

/-- Reply to `msgB`, id 13: a depth-2 reply chain. -/
def msgC : InterMessage :=
  .mk 13 none 30 groupChat none (some msgB) none (.text "c" [])

/-- A 100×100 photo size with id `a`. -/
def psSmall : PhotoSize :=
  { fileId := "a", width := 100, height := 100, fileSize := some 1000 }

/-- An 800×600 photo size with id `b`. -/
def psBig : PhotoSize :=
  { fileId := "b", width := 800, height := 600, fileSize := some 2000 }

/-- A photo message carrying both sizes. -/
def msgPhoto2 : InterMessage :=
  .mk 21 none 40 groupChat none none none
    (.photo [psSmall, psBig] (some "cap") none)

/-- A zero-area photo size with id `a`. -/
def psZeroA : PhotoSize :=
  { fileId := "a", width := 0, height := 0, fileSize := some 1 }

/-- A zero-area photo size with id `b`. -/
def psZeroB : PhotoSize :=
  { fileId := "b", width := 0, height := 0, fileSize := some 1 }

/-- An audio attachment with file-id `F`, size 10. -/
def audioF : Audio :=
  { fileId := "F", duration := 3, performer := none, title := none,
    mimeType := none, fileSize := some 10 }

/-- An audio message carrying `audioF`. -/
def msgAudioF : InterMessage :=
  .mk 31 none 50 groupChat none none none (.audio audioF)

/-- A store already holding the blob `[1]` under `file:chat:F`. -/
def sC5 : Store := emptyStore.put (buildFileKey .chat "F") (.bytes [1])

/-- An audio attachment declaring exactly the 50 MiB ceiling. -/
def audioMax : Audio :=
  { fileId := "fA", duration := 3, performer := none, title := none,
    mimeType := none, fileSize := some 52428800 }

/-- An audio message carrying `audioMax`. -/
def msgAudioMax : InterMessage :=
  .mk 32 none 50 groupChat none none none (.audio audioMax)

/-- A render environment whose scans see an empty store. -/
def renvEmpty : RenderEnv :=
  { iterRows := fun _ _ _ => [], latestDay := fun _ => none }

/-- A photo message with an empty photo-size list. -/
def msgPhotoEmpty : InterMessage :=
  .mk 41 none 60 groupChat none none none (.photo [] none none)

/-- A new-chat-photo message with an empty photo-size list. -/
def msgNewChatPhotoEmpty : InterMessage :=
  .mk 42 none 60 groupChat none none none (.newChatPhoto [])

/-- A 2×3 photo size. -/
def psW : PhotoSize :=
  { fileId := "w", width := 2, height := 3, fileSize := some 5 }

/-- A document attachment declaring exactly the 50 MiB ceiling. -/
def docMax : Document :=
  { fileId := "dM", fileName := some "f.bin", mimeType := none,
    fileSize := some 52428800 }

/-- A document message carrying `docMax`. -/
def msgDocMax : InterMessage :=
  .mk 33 none 50 groupChat none none none (.document docMax none)

/-- C1 (amended): `build_log_item` sets the persisted LogItem's `time`
to the message's *own* `date` in every variant, while the storage key
`chat:<chat-id>:<time>` uses the effective timestamp
(`forward.date` when a forward is present, else `date`); the two
coincide exactly when no forward is present. -/
theorem C1_logitem_time_is_own_date (env : Env) (s : Store)
    (m : InterMessage) (files : List String)
    (hok : (handleMessage env s m files).1 = true) :
    ∃ l, (handleMessage env s m files).2.getLogItem
        (handleMessageChatId m) (establishedDate m) = some l ∧
      l.time = m.date ∧
      (m.forward = none → establishedDate m = m.date) := by
  obtain ⟨l, h1, h2, _, _⟩ := handleMessage_writes env s m files hok
  exact ⟨l, h1, h2, fun hf => by simp [establishedDate, hf]⟩

/-- C1 witness: a text message with no forward is stored with key time
equal to its `time` field. -/
theorem C1_witness :
    ∃ l, (handleMessage envNone emptyStore msgText1 []).2.getLogItem
        (handleMessageChatId msgText1) (establishedDate msgText1) = some l ∧
      l.time = msgText1.date ∧
      (msgText1.forward = none →
        establishedDate msgText1 = msgText1.date) :=
  C1_logitem_time_is_own_date envNone emptyStore msgText1 [] rfl

/-- C1 counterexample: a forwarded message (own date 100, forward date
50) is stored under key time 50 while its LogItem `time` field is 100,
so the persisted `time` does not equal the `<time>` of the key. -/
theorem C1_counterexample :
    establishedDate msgFwd = 50 ∧ msgFwd.date = 100 ∧
    ((handleMessage envNone emptyStore msgFwd []).2.getLogItem
        "-100" 50).map LogItem.time = some 100 ∧ (50 : Int) ≠ 100 := by
  refine ⟨rfl, rfl, rfl, by decide⟩

/-- C2 (amended): for a receiving chat of variant Private-User or
Unknown with a forward, the record key is the forward origin's chat-id
when the forward records one (user-id for a user forward, channel-id
for a channel forward, group id for a hidden group admin) and falls
back to the receiving chat's id for a hidden-channel-user forward;
for Group, SuperGroup and Channel chats it is always the receiving
chat's id. -/
theorem C2_forward_chat_redirection (m : InterMessage) :
    (m.forward = none → handleMessageChatId m = m.chat.id) ∧
    (∀ f, m.forward = some f →
      (useForwardedChat m.chat = true →
        handleMessageChatId m =
          (forwardOriginChatId f.fromMeta).getD m.chat.id) ∧
      (useForwardedChat m.chat = false →
        handleMessageChatId m = m.chat.id)) ∧
    (useForwardedChat m.chat = false ↔
      (∃ g, m.chat = ChatMeta.group g) ∨
      (∃ g, m.chat = ChatMeta.superGroup g) ∨
      (∃ ch, m.chat = ChatMeta.channel ch)) := by
  refine ⟨?_, ?_, ?_⟩
  · intro hf
    simp [handleMessageChatId, hf]
  · intro f hf
    constructor
    · intro hu
      simp only [handleMessageChatId, hf, Option.map_some]
      rw [hu]
      cases hfm : f.fromMeta <;> simp [forwardOriginChatId, hfm]
    · intro hu
      simp only [handleMessageChatId, hf, Option.map_some]
      rw [hu]
      simp
  · cases m.chat <;> simp [useForwardedChat]

/-- C2 witness: a channel-post forward received in a private chat is
keyed by the channel's id `-200`; a plain group message is keyed by the
group's id `-100`. -/
theorem C2_witness :
    handleMessageChatId msgChanFwd = "-200" ∧
    handleMessageChatId msgText1 = "-100" := by
  constructor
  · have h := ((C2_forward_chat_redirection msgChanFwd).2.1 fwdChan rfl).1 rfl
    simpa [fwdChan, forwardOriginChatId] using h
  · have h := (C2_forward_chat_redirection msgText1).1 rfl
    simpa [msgText1, groupChat, ChatMeta.id, InterMessage.chat] using h

/-- C2 counterexample: a hidden-channel-user forward received in a
Private-User chat carries a forward but records no origin chat-id, and
the record is keyed by the receiving chat's id `7` — not by a forward
origin's chat-id. -/
theorem C2_counterexample :
    msgHiddenFwd.chat = ChatMeta.user privUser ∧
    msgHiddenFwd.forward = some fwdHidden ∧
    forwardOriginChatId fwdHidden.fromMeta = none ∧
    handleMessageChatId msgHiddenFwd = "7" ∧
    ¬ ∃ oid, forwardOriginChatId fwdHidden.fromMeta = some oid ∧
        handleMessageChatId msgHiddenFwd = oid := by
  refine ⟨rfl, rfl, rfl, rfl, ?_⟩
  rintro ⟨oid, hoid, _⟩
  cases hoid

/-- C3 (amended): for an update whose message has a `reply_to_message`,
exactly the immediate reply target is normalized and ingested
standalone, before the outer message; reply targets nested deeper in
the chain are not ingested at all. -/
theorem C3_reply_ingested_one_level (m r : InterMessage)
    (h : m.replyTo = some r) :
    ingestedSeq m = [r, m] ∧
    seqBefore (ingestedSeq m) r m ∧
    (∀ x y, (x, y) ∈ replyPairs r → x ∉ ingestedSeq m) := by
  have hseq : ingestedSeq m = [r, m] := by simp [ingestedSeq, h]
  refine ⟨hseq, ?_, ?_⟩
  · rw [hseq]
    exact ⟨0, 1, by omega, rfl, rfl⟩
  · intro x y hxy hmem
    rw [hseq] at hmem
    obtain ⟨hxy1, hxy2⟩ := replyPairs_sizeOf r x y hxy
    have hrm : sizeOf r < sizeOf m := replyTo_sizeOf h
    rcases List.mem_cons.mp hmem with rfl | hmem2
    · omega
    · rcases List.mem_cons.mp hmem2 with rfl | h3
      · omega
      · cases h3

/-- C3 witness: `msgB` (which replies to `msgA`) produces the
ingestion sequence `[msgA, msgB]`. -/
theorem C3_witness :
    ingestedSeq msgB = [msgA, msgB] ∧
    seqBefore (ingestedSeq msgB) msgA msgB ∧
    (∀ x y, (x, y) ∈ replyPairs msgA → x ∉ ingestedSeq msgB) :=
  C3_reply_ingested_one_level msgB msgA rfl

/-- C3 counterexample: in the depth-2 chain `msgA ← msgB ← msgC`, the
pair (msgA, msgB) is a reply level of the update's chain, but `msgA` is
never ingested — the ingestion sequence is `[msgB, msgC]` — so not
every reply target is ingested before the message replying to it. -/
theorem C3_counterexample :
    (msgA, msgB) ∈ replyPairs msgC ∧
    ¬ seqBefore (ingestedSeq msgC) msgA msgB := by
  constructor
  · have hr : replyPairs msgC = [(msgB, msgC), (msgA, msgB)] := rfl
    rw [hr]
    simp
  · rintro ⟨i, j, hij, hx, hy⟩
    have hs : ingestedSeq msgC = [msgB, msgC] := rfl
    rw [hs] at hx hy
    match j, hy with
    | 0, hy =>
        omega
    | 1, hy =>
        match i, hx with
        | 0, hx =>
            simp only [List.get?] at hx
            have hid := congrArg InterMessage.id (Option.some.inj hx)
            simp only [msgB, msgA, InterMessage.id] at hid
            omega
    | n + 2, hy =>
        simp only [List.get?] at hy
        exact Option.noConfusion hy

/-- C4 (amended): for a photo message whose sizes are all within the
ceiling (and resolvable/downloadable), *every* size is downloaded and
stored under `file:chat:<id>` and `files` lists all their file-ids in
order; `media_type` is `Image` with the dimensions of the photo
maximizing `width·height` — ties resolve to first-seen among photos of
positive area (an all-zero-area prefix resolves to its last element). -/
theorem C4_photo_media_files (env : Env) (s : Store) (m : InterMessage)
    (data : List PhotoSize) (caption mediaGroupId : Option String)
    (hk : m.kind = .photo data caption mediaGroupId)
    (hne : data ≠ [])
    (hsz : ∀ p ∈ data, ∃ x, p.fileSize = some x ∧ x ≤ MAX_FILE_SIZE)
    (hres : ∀ p ∈ data, ∃ path, env.resolve p.fileId = some path)
    (hdl : ∀ p ∈ data, ∀ path, env.resolve p.fileId = some path →
      ∃ b, env.download path = some b)
    (hraw : ∀ p ∈ data, s (Key.raw p.fileId) = none) :
    (processFiles env s m).1 = data.map (fun p => p.fileId) ∧
    (∀ p ∈ data, ∃ b,
      (processFiles env s m).2 (buildFileKey .chat p.fileId) =
        some (.bytes b)) ∧
    ∃ photo, findBiggestPhoto data = some photo ∧ photo ∈ data ∧
      (buildLogItem env (processFiles env s m).2 m
          (processFiles env s m).1).1 =
        some (.media (m.fromUser.map fun u => u.id) m.date caption
          (.image photo.width photo.height) (data.map fun p => p.fileId)
          (some m)) ∧
      ((∀ q ∈ data, 0 ≤ q.area) → ∀ q ∈ data, q.area ≤ photo.area) ∧
      ((∀ q ∈ data, 0 < q.area) → FirstMax photo data) := by
  have hrefs := photoFileRefs_all hsz hres
  have hextract : extractFilePaths env.resolve m =
      photoFileRefs env.resolve data := by
    simp [extractFilePaths, hk]
  have hraw2 : ∀ r ∈ photoFileRefs env.resolve data,
      s (Key.raw r.1) = none := by
    intro r hr
    obtain ⟨_, p, hp, hpid⟩ := hrefs.2 r hr
    exact hpid ▸ hraw p hp
  have hdl2 : ∀ r ∈ photoFileRefs env.resolve data,
      ∃ b, env.download r.2 = some b := by
    intro r hr
    obtain ⟨hresr, p, hp, hpid⟩ := hrefs.2 r hr
    exact hdl p hp r.2 (by rw [hpid]; exact hresr)
  have hloop := getFilesLoop_all hraw2 hdl2
  have hgf : getFiles env s m =
      getFilesLoop env s (photoFileRefs env.resolve data) := by
    rw [getFiles, hextract]
  have hfst : (processFiles env s m).1 = data.map (fun p => p.fileId) := by
    simp only [processFiles]
    rw [hgf, hloop.1, hrefs.1]
  refine ⟨hfst, ?_, ?_⟩
  · intro p hp
    obtain ⟨r, hr, hr1⟩ : ∃ r ∈ photoFileRefs env.resolve data,
        r.1 = p.fileId := by
      have hmm : p.fileId ∈
          (photoFileRefs env.resolve data).map Prod.fst := by
        rw [hrefs.1]
        exact List.mem_map_of_mem _ hp
      obtain ⟨r, hr, hr1⟩ := List.mem_map.mp hmm
      exact ⟨r, hr, hr1⟩
    obtain ⟨b, hb⟩ := hloop.2 r hr
    have hmem : (p.fileId, b) ∈ getFiles env s m := by
      rw [hgf, ← hr1]
      exact hb
    simp only [processFiles]
    exact foldl_file_mem hmem
  · obtain ⟨photo, hph⟩ :=
      Option.isSome_iff_exists.mp (findBiggestPhoto_isSome hne)
    refine ⟨photo, hph, findBiggestPhoto_mem hph, ?_,
      fun h0 => findBiggestPhoto_max h0 hph,
      fun h0 => findBiggestPhoto_firstMax h0 hph⟩
    simp [buildLogItem, hk, hph, hfst]

/-- C4 witness: the two-size photo message with a 100×100 and an
800×600 size, all oracles succeeding. -/
theorem C4_witness :
    (processFiles envC4 emptyStore msgPhoto2).1 =
      [psSmall, psBig].map (fun p => p.fileId) ∧
    (∀ p ∈ [psSmall, psBig], ∃ b,
      (processFiles envC4 emptyStore msgPhoto2).2
          (buildFileKey .chat p.fileId) = some (.bytes b)) ∧
    ∃ photo, findBiggestPhoto [psSmall, psBig] = some photo ∧
      photo ∈ [psSmall, psBig] ∧
      (buildLogItem envC4 (processFiles envC4 emptyStore msgPhoto2).2
          msgPhoto2 (processFiles envC4 emptyStore msgPhoto2).1).1 =
        some (.media (msgPhoto2.fromUser.map fun u => u.id) msgPhoto2.date
          (some "cap") (.image photo.width photo.height)
          ([psSmall, psBig].map fun p => p.fileId) (some msgPhoto2)) ∧
      ((∀ q ∈ [psSmall, psBig], 0 ≤ q.area) →
        ∀ q ∈ [psSmall, psBig], q.area ≤ photo.area) ∧
      ((∀ q ∈ [psSmall, psBig], 0 < q.area) →
        FirstMax photo [psSmall, psBig]) := by
  refine C4_photo_media_files envC4 emptyStore msgPhoto2
    [psSmall, psBig] (some "cap") none rfl (by decide) ?_ ?_ ?_ ?_
  · intro p hp
    rcases List.mem_cons.mp hp with rfl | hp
    · exact ⟨1000, rfl, by decide⟩
    rcases List.mem_cons.mp hp with rfl | hp
    · exact ⟨2000, rfl, by decide⟩
    cases hp
  · intro p _
    exact ⟨p.fileId, rfl⟩
  · intro p _ path _
    exact ⟨[7], rfl⟩
  · intro p _
    rfl

/-- C4 counterexample: both sizes of the two-size photo message are
downloaded and recorded (`files = ["a", "b"]`, not the singleton of
the biggest), and on an all-zero-area list the tie resolves to the
*last* element, not first-seen. -/
theorem C4_counterexample :
    (processFiles envC4 emptyStore msgPhoto2).1 = ["a", "b"] ∧
    (["a", "b"] : List String) ≠ ["b"] ∧
    findBiggestPhoto [psZeroA, psZeroB] = some psZeroB ∧
    psZeroB ≠ psZeroA ∧ psZeroB.area = psZeroA.area := by
  exact ⟨by decide, by decide, by decide, by decide, by decide⟩

/-- C5 (code bug): with the blob for file-id `F` already stored under
`file:chat:F`, `get_files` still fetches: its pre-check probes the bare
key `F` (never written by anything) and its reuse read targets
`file:user:F`, so the download runs and `process_files` overwrites
`file:chat:F` with the freshly downloaded bytes (`[9]` replacing the
stored `[1]`). -/
theorem C5_code_bug_eval :
    ((sC5 (buildFileKey .chat "F")).bind Value.asBytes) = some [1] ∧
    keyMayExist sC5 (Key.raw "F") = false ∧
    (((processFiles envC5 sC5 msgAudioF).2
        (buildFileKey .chat "F")).bind Value.asBytes) = some [9] := by
  exact ⟨by decide, by decide, by decide⟩

/-- C6 (amended): for the attachments `extract_file_paths` extracts —
audio, voice and photo — the size filter keeps exactly the attachments
with a declared size of at most the 50 MiB ceiling (52428800 bytes):
a `null` size is dropped, exactly `MAX` is kept, `MAX+k` is dropped;
the attachments of `Document`, `Sticker`, `Video` and `VideoNote`
messages hit the catch-all and are never extracted, whatever their
declared size. -/
theorem C6_size_filter :
    MAX_FILE_SIZE = 52428800 ∧
    sizeWithinLimit none = false ∧
    sizeWithinLimit (some 52428800) = true ∧
    (∀ x : Int, 52428800 < x → sizeWithinLimit (some x) = false) ∧
    (∀ (env : Env) (m : InterMessage) (a : Audio), m.kind = .audio a →
      extractFilePaths env.resolve m =
        if sizeWithinLimit a.fileSize then
          (match env.resolve a.fileId with
           | some path => [(a.fileId, path)]
           | none => [])
        else []) ∧
    (∀ (env : Env) (m : InterMessage) (v : Voice), m.kind = .voice v →
      extractFilePaths env.resolve m =
        if sizeWithinLimit v.fileSize then
          (match env.resolve v.fileId with
           | some path => [(v.fileId, path)]
           | none => [])
        else []) ∧
    (∀ (resolve : String → Option String) (data : List PhotoSize),
      photoFileRefs resolve data =
        (data.filter fun p => sizeWithinLimit p.fileSize).filterMap
          (fun p => (resolve p.fileId).map fun path => (p.fileId, path))) ∧
    (∀ (env : Env) (m : InterMessage) data caption mediaGroupId,
      m.kind = .photo data caption mediaGroupId →
      extractFilePaths env.resolve m = photoFileRefs env.resolve data) ∧
    (∀ (resolve : String → Option String) (m : InterMessage) d c,
      m.kind = .document d c → extractFilePaths resolve m = []) ∧
    (∀ (resolve : String → Option String) (m : InterMessage) d,
      m.kind = .sticker d → extractFilePaths resolve m = []) ∧
    (∀ (resolve : String → Option String) (m : InterMessage) d c,
      m.kind = .video d c → extractFilePaths resolve m = []) ∧
    (∀ (resolve : String → Option String) (m : InterMessage) d,
      m.kind = .videoNote d → extractFilePaths resolve m = []) := by
  refine ⟨by decide, rfl, by decide, ?_, ?_, ?_, ?_, ?_, ?_, ?_, ?_, ?_⟩
  · intro x hx
    simp only [sizeWithinLimit, MAX_FILE_SIZE]
    simp only [decide_eq_false_iff_not]
    omega
  · intro env m a hk
    simp only [extractFilePaths, hk]
    cases ha : a.fileSize with
    | none => simp [sizeWithinLimit]
    | some x =>
        by_cases hle : x ≤ MAX_FILE_SIZE
        · simp [sizeWithinLimit, hle]
        · simp [sizeWithinLimit, hle]
  · intro env m v hk
    simp only [extractFilePaths, hk]
    cases hv : v.fileSize with
    | none => simp [sizeWithinLimit]
    | some x =>
        by_cases hle : x ≤ MAX_FILE_SIZE
        · simp [sizeWithinLimit, hle]
        · simp [sizeWithinLimit, hle]
  · intro resolve data
    induction data with
    | nil => rfl
    | cons p rest ih =>
        cases hx : p.fileSize with
        | none => simp [photoFileRefs, hx, sizeWithinLimit, ih]
        | some x =>
            by_cases hle : x ≤ MAX_FILE_SIZE
            · cases hr : resolve p.fileId with
              | none => simp [photoFileRefs, hx, hr, sizeWithinLimit, hle, ih]
              | some path =>
                  simp [photoFileRefs, hx, hr, sizeWithinLimit, hle, ih]
            · simp [photoFileRefs, hx, sizeWithinLimit, hle, ih]
  · intro env m data caption mediaGroupId hk
    simp [extractFilePaths, hk]
  · intro resolve m d c hk
    simp [extractFilePaths, hk]
  · intro resolve m d hk
    simp [extractFilePaths, hk]
  · intro resolve m d c hk
    simp [extractFilePaths, hk]
  · intro resolve m d hk
    simp [extractFilePaths, hk]

/-- C6 witness: an audio attachment declaring exactly the ceiling is
kept and extracted. -/
theorem C6_witness :
    extractFilePaths envC4.resolve msgAudioMax = [("fA", "fA")] ∧
    sizeWithinLimit (some 52428800) = true := by
  obtain ⟨h1, h2, h3, h4, h5, h6, h7, h8⟩ := C6_size_filter
  refine ⟨?_, h3⟩
  rw [h5 envC4 msgAudioMax audioMax rfl]
  decide

/-- C6 counterexample: a document message is media-bearing and its
attachment declares exactly the 50 MiB ceiling, yet `extract_file_paths`
hits the catch-all and extracts nothing (all oracles succeeding), so
the attachment is not kept — against the claim's "file_size equals the
ceiling is kept" for every attachment of a media-bearing message. -/
theorem C6_counterexample :
    isMediaKind msgDocMax.kind = true ∧
    docMax.fileSize = some 52428800 ∧
    extractFilePaths envC4.resolve msgDocMax = [] ∧
    getFiles envC4 emptyStore msgDocMax = [] ∧
    (processFiles envC4 emptyStore msgDocMax).1 = [] := by
  exact ⟨by decide, by decide, by decide, by decide, by decide⟩

/-- C7 (amended): in every store reachable by ingesting a sequence of
updates from the empty store, a `chat_ref:<c>:<mid> = t` entry implies
`chat:<c>:<t>` exists and decodes to a `LogItem` whose `source` is an
`InterMessage` archived under chat-id `c` with effective timestamp `t`
(its `source.id` equals `mid` unless a later message collided on the
same `(c, t)` key: collisions overwrite the record and leave the
earlier refs stale). -/
theorem C7_ref_invariant (env : Env) (msgs : List InterMessage) :
    RefInv (runUpdates env emptyStore msgs) :=
  refInv_runUpdates env msgs emptyStore refInv_empty

/-- C7 witness: after ingesting one text message, the ref for
message-id 1 resolves to a stored, decodable record archived under
`("-100", 100)`. -/
theorem C7_witness :
    ∃ l m', (runUpdates envNone emptyStore [msgText1]).getLogItem
        "-100" 100 = some l ∧ l.source = some m' ∧
      handleMessageChatId m' = "-100" ∧ establishedDate m' = 100 :=
  C7_ref_invariant envNone [msgText1] "-100" 1 100 (by decide)

/-- C7 counterexample: two messages with ids 1 and 2 and the same
effective timestamp 100 collide on `chat:-100:100`; afterwards
`chat_ref:-100:1 = 100` still holds but the stored record's
`source.id` is 2, not 1. -/
theorem C7_counterexample :
    (runUpdates envNone emptyStore [msgText1, msgText2]).getRefTime
      "-100" 1 = some 100 ∧
    ((runUpdates envNone emptyStore [msgText1, msgText2]).getLogItem
        "-100" 100).bind LogItem.sourceId = some 2 ∧ (2 : Int) ≠ 1 := by
  exact ⟨by decide, by decide, by decide⟩

/-- C8 (code bug): `chat_listing` never strips the `.json` suffix
before parsing the date, so for the well-formed date `2023-01-01` the
request `GET /chat/<chat-id>/2023-01-01.json` parses
`"2023-01-01.json"`, which
fails (chrono rejects trailing input), and the JSON error object
`{status: "invalid date (got 2023-01-01.json)", error: true,
data: null}` is returned instead of the day's JSON array; a malformed
date in HTML mode does yield the body `"invalid date"` as specified. -/
theorem C8_code_bug_eval :
    parseNaiveDate "2023-01-01" = some (2023, 1, 1) ∧
    parseNaiveDate "2023-01-01.json" = none ∧
    chatListing renvEmpty emptyStore "-100" "2023-01-01.json" =
      .jsonInvalidDate "invalid date (got 2023-01-01.json)" ∧
    chatListing renvEmpty emptyStore "-100" "banana" = .htmlInvalidDate := by
  refine ⟨by decide, by decide, ?_, ?_⟩ <;> rfl

/-- C9 (amended): every request kind outside
{user, image, document, video, video_thumb} yields the 404 response
with body `"Unknown file request type"`; the kinds `document` and
`video` are accepted and served from the `file:chat:` namespace, so
the 404 does not cover everything outside {user, image, video_thumb}. -/
theorem C9_unknown_kind_404 (s : Store) (sniff : List Nat → Option String)
    (kind fileId : String)
    (h : kind ∉ (["user", "image", "document", "video",
      "video_thumb"] : List String)) :
    getFileEndpoint s sniff kind fileId = .unknownType404 := by
  obtain ⟨h1, h2, h3, h4, h5⟩ : ¬kind = "user" ∧ ¬kind = "image" ∧
      ¬kind = "document" ∧ ¬kind = "video" ∧ ¬kind = "video_thumb" := by
    simpa using h
  have ht : fileRequestTypeFromString kind = .unknown := by
    simp [fileRequestTypeFromString, h1, h2, h3, h4, h5]
  simp [getFileEndpoint, ht]

/-- C9 witness: `GET /file/thing/abc` is answered with the 404 body
`"Unknown file request type"`. -/
theorem C9_witness :
    getFileEndpoint emptyStore (fun _ => none) "thing" "abc" =
      .unknownType404 :=
  C9_unknown_kind_404 emptyStore (fun _ => none) "thing" "abc" (by decide)

/-- C9 counterexample: `document` is outside {user, image, video_thumb}
yet is mapped to the `Document` request type and does *not* produce the
`"Unknown file request type"` 404 (on an empty store it produces the
plain not-found rejection instead). -/
theorem C9_counterexample :
    ("document" ∉ (["user", "image", "video_thumb"] : List String)) ∧
    fileRequestTypeFromString "document" = .document ∧
    getFileEndpoint emptyStore (fun _ => none) "document" "abc" ≠
      .unknownType404 ∧
    getFileEndpoint emptyStore (fun _ => none) "document" "abc" =
      .rejectNotFound := by
  exact ⟨by decide, by decide, by decide, by decide⟩

/-- C10 (confirmed): `find_biggest_photo` returns an element of every
non-empty input but panics (`unwrap` of `None`) on the empty list, so
building the LogItem of a `Photo` or `NewChatPhoto` message with an
empty photo-size list panics and the ingestion run terminates with a
failure. -/
theorem C10_empty_photo_panics :
    (∀ ps : List PhotoSize, ps ≠ [] → ∃ p ∈ ps, findBiggestPhoto ps = some p) ∧
    findBiggestPhoto [] = none ∧
    (∀ (env : Env) (s : Store) (m : InterMessage) (files : List String)
      data caption mediaGroupId,
      m.kind = .photo data caption mediaGroupId → data = [] →
      (buildLogItem env s m files).1 = none ∧
      (handleInterMessage env s m).1 = false) ∧
    (∀ (env : Env) (s : Store) (m : InterMessage) (files : List String)
      data, m.kind = .newChatPhoto data → data = [] →
      (buildLogItem env s m files).1 = none ∧
      (handleInterMessage env s m).1 = false) := by
  refine ⟨?_, rfl, ?_, ?_⟩
  · intro ps hne
    obtain ⟨p, hp⟩ := Option.isSome_iff_exists.mp (findBiggestPhoto_isSome hne)
    exact ⟨p, findBiggestPhoto_mem hp, hp⟩
  · intro env s m files data caption mediaGroupId hk hdata
    subst hdata
    have hbl : ∀ (s' : Store) (files' : List String),
        buildLogItem env s' m files' = (none, s') := by
      intro s' files'
      simp [buildLogItem, hk, findBiggestPhoto, findBiggestPhotoAux]
    have hhm : ∀ (s' : Store) (files' : List String),
        handleMessage env s' m files' = (false, s') := by
      intro s' files'
      simp [handleMessage, hbl]
    refine ⟨by rw [hbl], ?_⟩
    simp [handleInterMessage, hhm]
  · intro env s m files data hk hdata
    subst hdata
    have hbl : ∀ (s' : Store) (files' : List String),
        buildLogItem env s' m files' = (none, s') := by
      intro s' files'
      simp [buildLogItem, hk, findBiggestPhoto, findBiggestPhotoAux]
    have hhm : ∀ (s' : Store) (files' : List String),
        handleMessage env s' m files' = (false, s') := by
      intro s' files'
      simp [handleMessage, hbl]
    refine ⟨by rw [hbl], ?_⟩
    simp [handleInterMessage, hhm]

/-- C10 witness: the singleton list yields its element; the concrete
empty-photo messages panic and fail the run. -/
theorem C10_witness :
    (∃ p ∈ [psW], findBiggestPhoto [psW] = some p) ∧
    (buildLogItem envNone emptyStore msgPhotoEmpty []).1 = none ∧
    (handleInterMessage envNone emptyStore msgPhotoEmpty).1 = false ∧
    (buildLogItem envNone emptyStore msgNewChatPhotoEmpty []).1 = none ∧
    (handleInterMessage envNone emptyStore msgNewChatPhotoEmpty).1 = false := by
  obtain ⟨h1, _, h3, h4⟩ := C10_empty_photo_panics
  have ha := h3 envNone emptyStore msgPhotoEmpty [] [] none none rfl rfl
  have hb := h4 envNone emptyStore msgNewChatPhotoEmpty [] [] rfl rfl
  exact ⟨h1 [psW] (by decide), ha.1, ha.2, hb.1, hb.2⟩
